import Mathlib

/-!
# Nissan Leaf web configuration forms (`nl_web.cpp`)

A shallow embedding of the two form handlers `OvmsVehicleNissanLeaf::WebCfgFeatures` and
`OvmsVehicleNissanLeaf::WebCfgBattery`: the submitted variables are read, checked, and
either written to the configuration store (status 200) or reported as an error list
(status 400, nothing written); on any other method than POST the current configuration is
read, with defaults.

The file has three layers:

* the C library functions the checks call (`atoi`, `atof`, the conversion to `float`);
* the collaborators of the handlers (request variables, configuration store);
* the handlers themselves, followed by the theorems about them.
-/

namespace NissanLeafWeb

/-! ## C library: `atoi` -/

/-- C `isspace` in the "C" locale: space, and the controls `\t \n \v \f \r` (9 to 13). -/
def isspace (c : Char) : Bool :=
  c.toNat == 32 || (9 ≤ c.toNat && c.toNat ≤ 13)

/-- C `isdigit`. -/
def isdigit (c : Char) : Bool :=
  48 ≤ c.toNat && c.toNat ≤ 57

/-- Leading white space is skipped by `strtol` and `strtod`. -/
def skipSpace : List Char → List Char
  | [] => []
  | c :: cs => if isspace c then skipSpace cs else c :: cs

/-- Value of the leading run of decimal digits, continuing from `acc`. -/
def digitsValue (acc : Nat) : List Char → Nat
  | [] => acc
  | c :: cs => if isdigit c then digitsValue (acc * 10 + (c.toNat - 48)) cs else acc

/-- `strtol(s, NULL, 10)` with a 32 bit `long`: white space, an optional sign, the leading
digits; no digits give `0`; a value out of range is clamped to `LONG_MIN` / `LONG_MAX`. -/
def strtol (s : List Char) : Int :=
  match skipSpace s with
  | '-' :: r => max (-2147483648) (-(digitsValue 0 r : Int))
  | '+' :: r => min 2147483647 (digitsValue 0 r : Int)
  | r => min 2147483647 (digitsValue 0 r : Int)

/-- `atoi(s.c_str())`, which is `(int) strtol(s, NULL, 10)`. -/
def atoi (s : String) : Int :=
  strtol s.data

/-! ## C library: `atof` and `float` -/

/-- A binary floating-point datum: not-a-number, an infinity, or the finite value
`(-1)^neg * m * 2^e` (a zero keeps its sign, as in IEEE 754). -/
inductive CFloat where
  | nan : CFloat
  | inf (neg : Bool) : CFloat
  | fin (neg : Bool) (m : Nat) (e : Int) : CFloat
  deriving DecidableEq, Repr

/-- The integer `m * 2^(e - b)` with the sign applied (`b ≤ e` is a common exponent). -/
def CFloat.scaled (neg : Bool) (m : Nat) (e b : Int) : Int :=
  if neg then -((m * 2 ^ (e - b).toNat : Nat) : Int) else ((m * 2 ^ (e - b).toNat : Nat) : Int)

/-- The comparison `a < b` of C on floating-point values: false as soon as one side is a
NaN, and `-0 < +0` is false. -/
def CFloat.lt : CFloat → CFloat → Bool
  | .fin na ma ea, .fin nb mb eb =>
      decide (CFloat.scaled na ma ea (min ea eb) < CFloat.scaled nb mb eb (min ea eb))
  | .inf true, .fin _ _ _ => true
  | .inf true, .inf false => true
  | .fin _ _ _, .inf false => true
  | _, _ => false

/-- An integer constant converted to floating point (exact for the constants used here). -/
def CFloat.ofNat (k : Nat) : CFloat :=
  .fin false k 0

/-- The rational number a finite datum stands for; none for NaN and the infinities. -/
def CFloat.value : CFloat → Option ℚ
  | .fin neg m e => some ((if neg then -1 else 1) * (m : ℚ) * (2 : ℚ) ^ e)
  | _ => none

/-- Number of binary digits of `n` (`fuel` bounds the recursion; `n` itself is enough). -/
def bitLen : Nat → Nat → Nat
  | 0, _ => 0
  | fuel + 1, n => if n = 0 then 0 else bitLen fuel (n / 2) + 1

/-- Whether `n / d ≥ 2^k`. -/
def geTwoPow (n d : Nat) (k : Int) : Bool :=
  if 0 ≤ k then decide (d * 2 ^ k.toNat ≤ n) else decide (d ≤ n * 2 ^ (-k).toNat)

/-- The exponent of the leading binary digit of `n / d`, that is `⌊log₂ (n / d)⌋`. -/
def leadExponent (n d : Nat) : Int :=
  let k : Int := (bitLen n n : Int) - (bitLen d d : Int)
  if geTwoPow n d k then k else k - 1

/-- The integer nearest to `N / D`, the even one of the two when it is half way. -/
def roundHalfEven (N D : Nat) : Nat :=
  let m : Nat := N / D
  let r : Nat := N % D
  if D < 2 * r ∨ (2 * r = D ∧ m % 2 = 1) then m + 1 else m

/-- Numerator of `(n / d) / 2^q`. -/
def scaledNum (n : Nat) (q : Int) : Nat :=
  if 0 ≤ q then n else n * 2 ^ (-q).toNat

/-- Denominator of `(n / d) / 2^q`. -/
def scaledDen (d : Nat) (q : Int) : Nat :=
  if 0 ≤ q then d * 2 ^ q.toNat else d

/-- Round the exact value `(-1)^neg * n / d` to the binary format with `p` digits of
precision and exponents `emin .. emax`, to nearest, ties to even; subnormals are kept, a
result beyond the largest finite number becomes an infinity. -/
def roundNearestEven (p : Nat) (emin emax : Int) (neg : Bool) (n d : Nat) : CFloat :=
  if n = 0 then .fin neg 0 0 else
  -- the exponent of the last digit kept
  let q : Int := max (leadExponent n d - (p - 1)) (emin - (p - 1))
  -- n / d = (N / D) * 2^q
  let m : Nat := roundHalfEven (scaledNum n q) (scaledDen d q)
  if 0 ≤ q ∧ 2 ^ (emax + 1).toNat ≤ m * 2 ^ q.toNat then .inf neg else .fin neg m q

/-- Correctly rounded IEEE 754 binary64 (`double`). -/
def toDouble (neg : Bool) (n d : Nat) : CFloat :=
  roundNearestEven 53 (-1022) 1023 neg n d

/-- The conversion `(float) x` of a `double` to IEEE 754 binary32. -/
def toFloat : CFloat → CFloat
  | .fin neg m e =>
      if 0 ≤ e then roundNearestEven 24 (-126) 127 neg (m * 2 ^ e.toNat) 1
      else roundNearestEven 24 (-126) 127 neg m (2 ^ (-e).toNat)
  | x => x

/-- Value of a hexadecimal digit. -/
def hexval (c : Char) : Option Nat :=
  if 48 ≤ c.toNat ∧ c.toNat ≤ 57 then some (c.toNat - 48)
  else if 97 ≤ c.toNat ∧ c.toNat ≤ 102 then some (c.toNat - 87)
  else if 65 ≤ c.toNat ∧ c.toNat ≤ 70 then some (c.toNat - 55)
  else none

/-- Leading run of digits in base 10 or 16: the accumulated value, the number of digits
read, and the rest of the input. -/
def takeDigits (hex : Bool) (acc cnt : Nat) : List Char → Nat × Nat × List Char
  | [] => (acc, cnt, [])
  | c :: cs =>
    if hex then
      match hexval c with
      | some v => takeDigits hex (acc * 16 + v) (cnt + 1) cs
      | none => (acc, cnt, c :: cs)
    else if isdigit c then takeDigits hex (acc * 10 + (c.toNat - 48)) (cnt + 1) cs
    else (acc, cnt, c :: cs)

/-- Digits with an optional radix point: the digits read as one integer, how many of
them there are, and how many of them follow the point. -/
def takeMantissa (hex : Bool) (s : List Char) : Nat × Nat × Nat × List Char :=
  match takeDigits hex 0 0 s with
  | (a, ci, '.' :: r) =>
    (match takeDigits hex a 0 r with
     | (a2, cf, r2) => (a2, ci + cf, cf, r2))
  | (a, ci, r) => (a, ci, 0, r)

/-- The optional exponent part that follows a mantissa: the letter (already consumed by
the caller), an optional sign and at least one decimal digit; otherwise no exponent. -/
def takeExponent (s : List Char) : Int :=
  match s with
  | '-' :: r => (match takeDigits false 0 0 r with | (v, _, _) => -(v : Int))
  | '+' :: r => (match takeDigits false 0 0 r with | (v, _, _) => (v : Int))
  | r => (match takeDigits false 0 0 r with | (v, _, _) => (v : Int))

/-- ASCII lower case of a letter. -/
def tolower (c : Char) : Nat :=
  if 65 ≤ c.toNat ∧ c.toNat ≤ 90 then c.toNat + 32 else c.toNat

/-- The exact value `mant * base^k` as a double. -/
def scaleToDouble (neg : Bool) (mant base : Nat) (k : Int) : CFloat :=
  if 0 ≤ k then toDouble neg (mant * base ^ k.toNat) 1 else toDouble neg mant (base ^ (-k).toNat)

/-- The unsigned part of the subject sequence of `strtod` (C99 7.20.1.3): a hexadecimal
floating constant, a decimal one, `INF`/`INFINITY` or `NAN`/`NAN(...)` in any case; when
no conversion can be made the result is zero. -/
def strtodUnsigned (neg : Bool) (s : List Char) : CFloat :=
  let decimal : CFloat :=
    match takeMantissa false s with
    | (_, 0, _, _) =>
      (match s.map tolower with
       | 105 :: 110 :: 102 :: _ => .inf neg
       | 110 :: 97 :: 110 :: _ => .nan
       | _ => .fin false 0 0)
    | (mant, _, cf, 'e' :: r) => scaleToDouble neg mant 10 (takeExponent r - cf)
    | (mant, _, cf, 'E' :: r) => scaleToDouble neg mant 10 (takeExponent r - cf)
    | (mant, _, cf, _) => scaleToDouble neg mant 10 (-(cf : Int))
  let hexadecimal (r : List Char) : CFloat :=
    match takeMantissa true r with
    | (_, 0, _, _) => decimal
    | (mant, _, cf, 'p' :: r2) => scaleToDouble neg mant 2 (takeExponent r2 - 4 * cf)
    | (mant, _, cf, 'P' :: r2) => scaleToDouble neg mant 2 (takeExponent r2 - 4 * cf)
    | (mant, _, cf, _) => scaleToDouble neg mant 2 (-(4 * cf : Int))
  match s with
  | '0' :: 'x' :: r => hexadecimal r
  | '0' :: 'X' :: r => hexadecimal r
  | _ => decimal

/-- `strtod(s, NULL)`: white space, an optional sign, the subject sequence. -/
def strtod (s : List Char) : CFloat :=
  match skipSpace s with
  | '-' :: r => strtodUnsigned true r
  | '+' :: r => strtodUnsigned false r
  | r => strtodUnsigned false r

/-- `atof(s.c_str())`, which is `strtod(s, NULL)`. -/
def atof (s : String) : CFloat :=
  strtod s.data

/-! ## Collaborators of the handlers -/

/-- `std::string::empty()`. -/
def empty (s : String) : Bool :=
  s.data.isEmpty

/-- The request as the handlers see it: the HTTP method and the submitted variables. -/
structure PageContext where
  method : String
  vars : List (String × String)
  deriving Repr

/-- Modelled from the spec: `PageContext_t::getvar` (ovms_webserver, not under src/),
"`getvar(name) -> string` for submitted fields"; a field the submission omits is
"treated as empty string". -/
def PageContext.getvar (c : PageContext) (name : String) : String :=
  match c.vars.lookup name with
  | some v => v
  | none => ""

/-- Modelled from the spec: the configuration store `MyConfig` (ovms_config, not under
src/), a map from (namespace, key) to the "stored string value", read and written only
through the four primitives below. -/
abbrev OvmsConfig := String → String → Option String

/-- Modelled from the spec: `OvmsConfig::GetParamValue` (ovms_config, not under src/),
which "returns the stored value if present, else the field's declared default". -/
def GetParamValue (cfg : OvmsConfig) (param name defvalue : String) : String :=
  match cfg param name with
  | some v => v
  | none => defvalue

/-- Modelled from the spec: `OvmsConfig::SetParamValue` (ovms_config, not under src/),
`set(namespace,key,string)`: afterwards the entry holds the value, every other entry is
as before. -/
def SetParamValue (cfg : OvmsConfig) (param name value : String) : OvmsConfig :=
  fun p i => if p = param ∧ i = name then some value else cfg p i

/-- Modelled from the spec: `OvmsConfig::SetParamValueBool` (ovms_config, not under src/);
the stored value is a string, and for booleans "the literal string "yes" maps to true". -/
def SetParamValueBool (cfg : OvmsConfig) (param name : String) (value : Bool) : OvmsConfig :=
  SetParamValue cfg param name (if value then "yes" else "no")

/-- Modelled from the spec: `OvmsConfig::GetParamValueBool` (ovms_config, not under src/):
the default when there is no entry, else whether the stored string is "yes"
("anything else ... maps to false"). -/
def GetParamValueBool (cfg : OvmsConfig) (param name : String) (defvalue : Bool) : Bool :=
  match cfg param name with
  | some v => v == "yes"
  | none => defvalue

/-- The stringified macros `STR(...)` of `vehicle_nissanleaf.h` (not under src/) that the
features form uses as defaults. -/
structure NlConstants where
  DEFAULT_MODEL_YEAR : String
  DEFAULT_CABINTEMP_OFFSET : String
  DEFAULT_PIN_EV : String
  GEN_1_NEW_CAR_GIDS : String
  GEN_1_NEW_CAR_AH : String
  deriving Repr

/-- What a handler sends back: the status of `c.head`, the `c.alert` (type and text),
whether `MyWebServer.OutputHome` replaced the form, and otherwise the values the generated
form shows. -/
structure PageOutput (V : Type) where
  status : Nat
  alert : Option (String × String)
  home : Bool
  form : Option V

/-! ## `WebCfgFeatures` -/

/-- The local variables of `WebCfgFeatures`. -/
structure FeaturesVars where
  modelyear : String
  cabintempoffset : String
  cfg_ev_request_port : String
  maxgids : String
  newcarah : String
  socnewcar : Bool
  sohnewcar : Bool
  canwrite : Bool
  deriving DecidableEq, Repr

/-- The `// check:` block of `WebCfgFeatures`: the accumulated `error` string. -/
def featuresCheck (modelyear cabintempoffset cfg_ev_request_port : String) : String :=
  let error := ""
  let error :=
    if !empty modelyear then
      if atoi modelyear < 2011 then
        error ++ "<li data-input=\"modelyear\">Model year must be &ge; 2011</li>"
      else error
    else error
  let error :=
    if empty cabintempoffset then
      error ++ "<li data-input=\"cabintempoffset\">Cabin Temperature Offset can not be empty</li>"
    else error
  let error :=
    if empty cfg_ev_request_port then
      error ++ "<li data-input=\"cfg_ev_request_port\">EV SYSTEM ACTIVATION REQUEST Pin field cannot be empty</li>"
    else error
  error

/-- `OvmsVehicleNissanLeaf::WebCfgFeatures`: the configuration store after the request and
the page sent back. -/
def WebCfgFeatures (K : NlConstants) (c : PageContext) (MyConfig : OvmsConfig) :
    OvmsConfig × PageOutput FeaturesVars :=
  if c.method == "POST" then
    -- process form submission:
    let modelyear := c.getvar "modelyear"
    let cabintempoffset := c.getvar "cabintempoffset"
    let cfg_ev_request_port := c.getvar "cfg_ev_request_port"
    let maxgids := c.getvar "maxgids"
    let newcarah := c.getvar "newcarah"
    let socnewcar := c.getvar "socnewcar" == "yes"
    let sohnewcar := c.getvar "sohnewcar" == "yes"
    let canwrite := c.getvar "canwrite" == "yes"
    -- check:
    let error := featuresCheck modelyear cabintempoffset cfg_ev_request_port
    if error == "" then
      -- store:
      let MyConfig := SetParamValue MyConfig "xnl" "modelyear" modelyear
      let MyConfig := SetParamValue MyConfig "xnl" "cabintempoffset" cabintempoffset
      let MyConfig := SetParamValue MyConfig "xnl" "cfg_ev_request_port" cfg_ev_request_port
      let MyConfig := SetParamValue MyConfig "xnl" "maxGids" maxgids
      let MyConfig := SetParamValue MyConfig "xnl" "newCarAh" newcarah
      let MyConfig := SetParamValueBool MyConfig "xnl" "soc.newcar" socnewcar
      let MyConfig := SetParamValueBool MyConfig "xnl" "soh.newcar" sohnewcar
      let MyConfig := SetParamValueBool MyConfig "xnl" "canwrite" canwrite
      (MyConfig,
        { status := 200
          alert := some ("success", "<p class=\"lead\">Nissan Leaf feature configuration saved.</p>")
          home := true
          form := none })
    else
      -- output error, return to form:
      let error := "<p class=\"lead\">Error!</p><ul class=\"errorlist\">" ++ error ++ "</ul>"
      (MyConfig,
        { status := 400
          alert := some ("danger", error)
          home := false
          form := some
            { modelyear := modelyear, cabintempoffset := cabintempoffset,
              cfg_ev_request_port := cfg_ev_request_port, maxgids := maxgids,
              newcarah := newcarah, socnewcar := socnewcar, sohnewcar := sohnewcar,
              canwrite := canwrite } })
  else
    -- read configuration:
    let modelyear := GetParamValue MyConfig "xnl" "modelyear" K.DEFAULT_MODEL_YEAR
    let cabintempoffset := GetParamValue MyConfig "xnl" "cabintempoffset" K.DEFAULT_CABINTEMP_OFFSET
    let cfg_ev_request_port := GetParamValue MyConfig "xnl" "cfg_ev_request_port" K.DEFAULT_PIN_EV
    let maxgids := GetParamValue MyConfig "xnl" "maxGids" K.GEN_1_NEW_CAR_GIDS
    let newcarah := GetParamValue MyConfig "xnl" "newCarAh" K.GEN_1_NEW_CAR_AH
    let socnewcar := GetParamValueBool MyConfig "xnl" "soc.newcar" false
    let sohnewcar := GetParamValueBool MyConfig "xnl" "soh.newcar" false
    let canwrite := GetParamValueBool MyConfig "xnl" "canwrite" false
    (MyConfig,
      { status := 200
        alert := none
        home := false
        form := some
          { modelyear := modelyear, cabintempoffset := cabintempoffset,
            cfg_ev_request_port := cfg_ev_request_port, maxgids := maxgids,
            newcarah := newcarah, socnewcar := socnewcar, sohnewcar := sohnewcar,
            canwrite := canwrite } })

/-! ## `WebCfgBattery` -/

/-- The local variables of `WebCfgBattery`. -/
structure BatteryVars where
  suffrange : String
  suffrangecalc : String
  suffsoc : String
  rangedrop : String
  socdrop : String
  minrange : String
  minsoc : String
  chgnoteonly : Bool
  deriving DecidableEq, Repr

/-- The `// check:` block of `WebCfgBattery`: the accumulated `error` string. Each
`float n = atof(...)` is compared with the constants `0` and `100`. -/
def batteryCheck (suffrange suffsoc rangedrop socdrop minrange minsoc : String) : String :=
  let error := ""
  let error :=
    if !empty suffrange then
      let n := toFloat (atof suffrange)
      if n.lt (CFloat.ofNat 0) then
        error ++ "<li data-input=\"suffrange\">Sufficient range invalid, must be &ge; 0</li>"
      else error
    else error
  let error :=
    if !empty suffsoc then
      let n := toFloat (atof suffsoc)
      if n.lt (CFloat.ofNat 0) || (CFloat.ofNat 100).lt n then
        error ++ "<li data-input=\"suffsoc\">Sufficient SOC invalid, must be 0…100</li>"
      else error
    else error
  let error :=
    if !empty rangedrop then
      let n := toFloat (atof rangedrop)
      if n.lt (CFloat.ofNat 0) then
        error ++ "<li data-input=\"rangedrop\">Allowed range drop invalid, must be &ge; 0</li>"
      else error
    else error
  let error :=
    if !empty socdrop then
      let n := toFloat (atof socdrop)
      if n.lt (CFloat.ofNat 0) || (CFloat.ofNat 100).lt n then
        error ++ "<li data-input=\"socdrop\">Allowed SOC drop invalid, must be 0…100</li>"
      else error
    else error
  let error :=
    if !empty minrange then
      let n := toFloat (atof minrange)
      if n.lt (CFloat.ofNat 0) then
        error ++ "<li data-input=\"minrange\">Minimum range invalid, must be &ge; 0</li>"
      else error
    else error
  let error :=
    if !empty minsoc then
      let n := toFloat (atof minsoc)
      if n.lt (CFloat.ofNat 0) || (CFloat.ofNat 100).lt n then
        error ++ "<li data-input=\"minsoc\">Minimum SOC invalid, must be 0…100</li>"
      else error
    else error
  error

/-- `OvmsVehicleNissanLeaf::WebCfgBattery`: the configuration store after the request and
the page sent back. -/
def WebCfgBattery (c : PageContext) (MyConfig : OvmsConfig) :
    OvmsConfig × PageOutput BatteryVars :=
  if c.method == "POST" then
    -- process form submission:
    let suffrange := c.getvar "suffrange"
    let suffrangecalc := c.getvar "suffrangecalc"
    let suffsoc := c.getvar "suffsoc"
    let rangedrop := c.getvar "rangedrop"
    let socdrop := c.getvar "socdrop"
    let minrange := c.getvar "minrange"
    let minsoc := c.getvar "minsoc"
    let chgnoteonly := c.getvar "chgnoteonly" == "yes"
    -- check:
    let error := batteryCheck suffrange suffsoc rangedrop socdrop minrange minsoc
    if error == "" then
      -- store:
      let MyConfig := SetParamValue MyConfig "xnl" "suffrange" suffrange
      let MyConfig := SetParamValue MyConfig "xnl" "suffrangecalc" suffrangecalc
      let MyConfig := SetParamValue MyConfig "xnl" "suffsoc" suffsoc
      let MyConfig := SetParamValue MyConfig "xnl" "rangedrop" rangedrop
      let MyConfig := SetParamValue MyConfig "xnl" "socdrop" socdrop
      let MyConfig := SetParamValue MyConfig "xnl" "minrange" minrange
      let MyConfig := SetParamValue MyConfig "xnl" "minsoc" minsoc
      let MyConfig := SetParamValueBool MyConfig "xnl" "autocharge" (!chgnoteonly)
      (MyConfig,
        { status := 200
          alert := some ("success", "<p class=\"lead\">Nissan Leaf battery setup saved.</p>")
          home := true
          form := none })
    else
      -- output error, return to form:
      let error := "<p class=\"lead\">Error!</p><ul class=\"errorlist\">" ++ error ++ "</ul>"
      (MyConfig,
        { status := 400
          alert := some ("danger", error)
          home := false
          form := some
            { suffrange := suffrange, suffrangecalc := suffrangecalc, suffsoc := suffsoc,
              rangedrop := rangedrop, socdrop := socdrop, minrange := minrange,
              minsoc := minsoc, chgnoteonly := chgnoteonly } })
  else
    -- read configuration:
    let suffrangecalc := GetParamValue MyConfig "xnl" "suffrangecalc" "ideal"
    let suffrange := GetParamValue MyConfig "xnl" "suffrange" "0"
    let suffsoc := GetParamValue MyConfig "xnl" "suffsoc" "0"
    let rangedrop := GetParamValue MyConfig "xnl" "rangedrop" "0"
    let socdrop := GetParamValue MyConfig "xnl" "socdrop" "0"
    let minrange := GetParamValue MyConfig "xnl" "minrange" "0"
    let minsoc := GetParamValue MyConfig "xnl" "minsoc" "0"
    let chgnoteonly := !GetParamValueBool MyConfig "xnl" "autocharge" true
    (MyConfig,
      { status := 200
        alert := none
        home := false
        form := some
          { suffrange := suffrange, suffrangecalc := suffrangecalc, suffsoc := suffsoc,
            rangedrop := rangedrop, socdrop := socdrop, minrange := minrange,
            minsoc := minsoc, chgnoteonly := chgnoteonly } })

/-- The variables a POST of the features form reads from the request. -/
def featuresSubmitted (c : PageContext) : FeaturesVars :=
  { modelyear := c.getvar "modelyear", cabintempoffset := c.getvar "cabintempoffset",
    cfg_ev_request_port := c.getvar "cfg_ev_request_port", maxgids := c.getvar "maxgids",
    newcarah := c.getvar "newcarah", socnewcar := c.getvar "socnewcar" == "yes",
    sohnewcar := c.getvar "sohnewcar" == "yes", canwrite := c.getvar "canwrite" == "yes" }

/-- The variables a POST of the battery form reads from the request. -/
def batterySubmitted (c : PageContext) : BatteryVars :=
  { suffrange := c.getvar "suffrange", suffrangecalc := c.getvar "suffrangecalc",
    suffsoc := c.getvar "suffsoc", rangedrop := c.getvar "rangedrop",
    socdrop := c.getvar "socdrop", minrange := c.getvar "minrange",
    minsoc := c.getvar "minsoc", chgnoteonly := c.getvar "chgnoteonly" == "yes" }

/-- The error string the features form accumulates for a request. -/
def featuresError (c : PageContext) : String :=
  featuresCheck (c.getvar "modelyear") (c.getvar "cabintempoffset")
    (c.getvar "cfg_ev_request_port")

/-- The error string the battery form accumulates for a request. -/
def batteryError (c : PageContext) : String :=
  batteryCheck (c.getvar "suffrange") (c.getvar "suffsoc") (c.getvar "rangedrop")
    (c.getvar "socdrop") (c.getvar "minrange") (c.getvar "minsoc")

/-- A configuration store without any entry. -/
def emptyConfig : OvmsConfig :=
  fun _ _ => none

/-! ## Vocabulary of the properties -/

/-- The test of a range field (`suffrange`, `rangedrop`, `minrange`) on its value
`float n = atof(s)`: `n < 0`. -/
def belowZero (s : String) : Bool :=
  (toFloat (atof s)).lt (CFloat.ofNat 0)

/-- The test of a percentage field (`suffsoc`, `socdrop`, `minsoc`) on its value
`float n = atof(s)`: `n < 0 || n > 100`. -/
def outsidePercent (s : String) : Bool :=
  (toFloat (atof s)).lt (CFloat.ofNat 0) || (CFloat.ofNat 100).lt (toFloat (atof s))

/-- One checked field of a form: the tag of its error entry, the message, and the
condition under which the submitted values violate its rule. -/
structure FieldRule (V : Type) where
  field : String
  message : String
  violated : V → Bool

/-- One entry of the error list, as markup. -/
def errorItem (field message : String) : String :=
  "<li data-input=\"" ++ field ++ "\">" ++ message ++ "</li>"

/-- The error list as markup: its entries one after the other. -/
def renderErrors : List (String × String) → String
  | [] => ""
  | e :: es => errorItem e.1 e.2 ++ renderErrors es

/-- The entries a validation pass owes: one (field, message) for each rule that is
violated, in the order of the rules. -/
def expectedErrors {V : Type} (rules : List (FieldRule V)) (v : V) : List (String × String) :=
  (rules.filter (fun r => r.violated v)).map (fun r => (r.field, r.message))

/-- The rules of the features form, in check order. -/
def featuresRules : List (FieldRule FeaturesVars) :=
  [ { field := "modelyear", message := "Model year must be &ge; 2011",
      violated := fun v => !empty v.modelyear && decide (atoi v.modelyear < 2011) },
    { field := "cabintempoffset", message := "Cabin Temperature Offset can not be empty",
      violated := fun v => empty v.cabintempoffset },
    { field := "cfg_ev_request_port",
      message := "EV SYSTEM ACTIVATION REQUEST Pin field cannot be empty",
      violated := fun v => empty v.cfg_ev_request_port } ]

/-- The rules of the battery form, in check order. -/
def batteryRules : List (FieldRule BatteryVars) :=
  [ { field := "suffrange", message := "Sufficient range invalid, must be &ge; 0",
      violated := fun v => !empty v.suffrange && belowZero v.suffrange },
    { field := "suffsoc", message := "Sufficient SOC invalid, must be 0…100",
      violated := fun v => !empty v.suffsoc && outsidePercent v.suffsoc },
    { field := "rangedrop", message := "Allowed range drop invalid, must be &ge; 0",
      violated := fun v => !empty v.rangedrop && belowZero v.rangedrop },
    { field := "socdrop", message := "Allowed SOC drop invalid, must be 0…100",
      violated := fun v => !empty v.socdrop && outsidePercent v.socdrop },
    { field := "minrange", message := "Minimum range invalid, must be &ge; 0",
      violated := fun v => !empty v.minrange && belowZero v.minrange },
    { field := "minsoc", message := "Minimum SOC invalid, must be 0…100",
      violated := fun v => !empty v.minsoc && outsidePercent v.minsoc } ]

/-- The text `item` occurs in `text`. -/
def Occurs (item text : String) : Prop :=
  ∃ pre post : String, text = pre ++ item ++ post

/-- The keys the features form stores in the namespace "xnl". -/
def featuresKeys : List String :=
  ["modelyear", "cabintempoffset", "cfg_ev_request_port", "maxGids", "newCarAh",
    "soc.newcar", "soh.newcar", "canwrite"]

/-- The keys the battery form stores in the namespace "xnl". -/
def batteryKeys : List String :=
  ["suffrange", "suffrangecalc", "suffsoc", "rangedrop", "socdrop", "minrange", "minsoc",
    "autocharge"]

/-- The options the features form declares for `cfg_ev_request_port`. -/
def requestPortOptions : List String :=
  ["1", "3", "4", "5", "6", "7", "8", "9"]

/-- Text that starts with none of the characters a number, an infinity or a NaN can start
with: not white space, a sign, a digit, a point, nor the letters i and n. -/
def nonNumeric (s : String) : Bool :=
  match s.data with
  | [] => false
  | c :: _ =>
    !isspace c && !isdigit c && c.toNat != 43 && c.toNat != 45 && c.toNat != 46 &&
      tolower c != 105 && tolower c != 110

/-- The request with one more variable, which takes precedence over an earlier one of the
same name. -/
def PageContext.setvar (c : PageContext) (name value : String) : PageContext :=
  { c with vars := (name, value) :: c.vars }

/-- A POST request with the given variables. -/
def postRequest (vars : List (String × String)) : PageContext :=
  { method := "POST", vars := vars }

/-- A GET request. -/
def getRequest : PageContext :=
  { method := "GET", vars := [] }

/-- A sample set of defaults, for concrete evaluations. -/
def sampleConstants : NlConstants :=
  { DEFAULT_MODEL_YEAR := "2012", DEFAULT_CABINTEMP_OFFSET := ".0", DEFAULT_PIN_EV := "1",
    GEN_1_NEW_CAR_GIDS := "281", GEN_1_NEW_CAR_AH := "66" }

/-! ## Basic facts -/

set_option maxRecDepth 8000

theorem empty_iff (s : String) : empty s = true ↔ s = "" := by
  rcases s with ⟨d⟩
  cases d with
  | nil => simp [empty]
  | cons a l =>
    simp only [empty, List.isEmpty_cons, Bool.false_eq_true, false_iff]
    intro h
    exact absurd (congrArg String.data h) (by simp)

theorem empty_eq_false_iff (s : String) : empty s = false ↔ s ≠ "" := by
  rw [ne_eq, ← empty_iff]; cases empty s <;> simp

theorem append_eq_empty (a b : String) : a ++ b = "" ↔ a = "" ∧ b = "" := by
  constructor
  · intro h
    have h2 : a.data ++ b.data = [] := by
      have := congrArg String.data h
      simpa using this
    rw [List.append_eq_nil] at h2
    exact ⟨String.ext h2.1, String.ext h2.2⟩
  · rintro ⟨rfl, rfl⟩; rfl

/-- One step of a check block: the message is appended when the field is to be tested
and its test fails. -/
theorem step_eq_empty (a b : Bool) (e msg : String) (h : msg ≠ "") :
    (if a = true then (if b = true then e ++ msg else e) else e) = "" ↔
      e = "" ∧ ¬(a = true ∧ b = true) := by
  cases a <;> cases b <;> simp [append_eq_empty, h]

theorem featuresCheck_eq_empty_iff (modelyear cabintempoffset cfg_ev_request_port : String) :
    featuresCheck modelyear cabintempoffset cfg_ev_request_port = "" ↔
      (modelyear = "" ∨ 2011 ≤ atoi modelyear) ∧ cabintempoffset ≠ "" ∧
        cfg_ev_request_port ≠ "" := by
  unfold featuresCheck
  by_cases h1 : modelyear = "" <;> by_cases h2 : atoi modelyear < 2011 <;>
    by_cases h3 : cabintempoffset = "" <;> by_cases h4 : cfg_ev_request_port = "" <;>
    simp [h1, h2, h3, h4, (empty_iff _).2, (empty_eq_false_iff _).2, append_eq_empty]
  omega

theorem batteryCheck_eq_empty_iff
    (suffrange suffsoc rangedrop socdrop minrange minsoc : String) :
    batteryCheck suffrange suffsoc rangedrop socdrop minrange minsoc = "" ↔
      (suffrange = "" ∨ belowZero suffrange = false) ∧
      (suffsoc = "" ∨ outsidePercent suffsoc = false) ∧
      (rangedrop = "" ∨ belowZero rangedrop = false) ∧
      (socdrop = "" ∨ outsidePercent socdrop = false) ∧
      (minrange = "" ∨ belowZero minrange = false) ∧
      (minsoc = "" ∨ outsidePercent minsoc = false) := by
  have key : ∀ (s : String) (b : Bool),
      ¬((!empty s) = true ∧ b = true) ↔ (s = "" ∨ b = false) := by
    intro s b
    by_cases h : s = ""
    · simp [h, (empty_iff _).2]
    · simp [h, (empty_eq_false_iff _).2]
  have h1 : "<li data-input=\"suffrange\">Sufficient range invalid, must be &ge; 0</li>" ≠ "" := by
    decide
  have h2 : "<li data-input=\"suffsoc\">Sufficient SOC invalid, must be 0…100</li>" ≠ "" := by
    decide
  have h3 : "<li data-input=\"rangedrop\">Allowed range drop invalid, must be &ge; 0</li>" ≠ "" := by
    decide
  have h4 : "<li data-input=\"socdrop\">Allowed SOC drop invalid, must be 0…100</li>" ≠ "" := by
    decide
  have h5 : "<li data-input=\"minrange\">Minimum range invalid, must be &ge; 0</li>" ≠ "" := by
    decide
  have h6 : "<li data-input=\"minsoc\">Minimum SOC invalid, must be 0…100</li>" ≠ "" := by
    decide
  unfold batteryCheck
  simp only [step_eq_empty _ _ _ _ h1, step_eq_empty _ _ _ _ h2, step_eq_empty _ _ _ _ h3,
    step_eq_empty _ _ _ _ h4, step_eq_empty _ _ _ _ h5, step_eq_empty _ _ _ _ h6, key,
    true_and, belowZero, outsidePercent, and_assoc]

/-! ### The configuration store -/

theorem SetParamValue_same (cfg : OvmsConfig) (p k v : String) :
    SetParamValue cfg p k v p k = some v := by
  simp [SetParamValue]

theorem SetParamValue_other (cfg : OvmsConfig) (p k v p2 k2 : String)
    (h : ¬(p2 = p ∧ k2 = k)) : SetParamValue cfg p k v p2 k2 = cfg p2 k2 := by
  simp only [SetParamValue, if_neg h]

/-! ### The two outcomes of a POST, and the read path -/

theorem WebCfgFeatures_rejected (K : NlConstants) (c : PageContext) (cfg : OvmsConfig)
    (hm : c.method = "POST") (he : featuresError c ≠ "") :
    WebCfgFeatures K c cfg =
      (cfg,
        { status := 400
          alert := some ("danger",
            "<p class=\"lead\">Error!</p><ul class=\"errorlist\">" ++ featuresError c ++ "</ul>")
          home := false
          form := some (featuresSubmitted c) }) := by
  unfold featuresError at he
  simp [WebCfgFeatures, hm, he, featuresError, featuresSubmitted]

theorem WebCfgFeatures_accepted (K : NlConstants) (c : PageContext) (cfg : OvmsConfig)
    (hm : c.method = "POST") (he : featuresError c = "") :
    WebCfgFeatures K c cfg =
      (SetParamValueBool (SetParamValueBool (SetParamValueBool (SetParamValue (SetParamValue
        (SetParamValue (SetParamValue (SetParamValue cfg
          "xnl" "modelyear" (c.getvar "modelyear"))
          "xnl" "cabintempoffset" (c.getvar "cabintempoffset"))
          "xnl" "cfg_ev_request_port" (c.getvar "cfg_ev_request_port"))
          "xnl" "maxGids" (c.getvar "maxgids"))
          "xnl" "newCarAh" (c.getvar "newcarah"))
          "xnl" "soc.newcar" (c.getvar "socnewcar" == "yes"))
          "xnl" "soh.newcar" (c.getvar "sohnewcar" == "yes"))
          "xnl" "canwrite" (c.getvar "canwrite" == "yes"),
        { status := 200
          alert := some ("success",
            "<p class=\"lead\">Nissan Leaf feature configuration saved.</p>")
          home := true
          form := none }) := by
  unfold featuresError at he
  simp [WebCfgFeatures, hm, he]

theorem WebCfgFeatures_read (K : NlConstants) (c : PageContext) (cfg : OvmsConfig)
    (hm : c.method ≠ "POST") :
    WebCfgFeatures K c cfg =
      (cfg,
        { status := 200
          alert := none
          home := false
          form := some
            { modelyear := GetParamValue cfg "xnl" "modelyear" K.DEFAULT_MODEL_YEAR
              cabintempoffset :=
                GetParamValue cfg "xnl" "cabintempoffset" K.DEFAULT_CABINTEMP_OFFSET
              cfg_ev_request_port :=
                GetParamValue cfg "xnl" "cfg_ev_request_port" K.DEFAULT_PIN_EV
              maxgids := GetParamValue cfg "xnl" "maxGids" K.GEN_1_NEW_CAR_GIDS
              newcarah := GetParamValue cfg "xnl" "newCarAh" K.GEN_1_NEW_CAR_AH
              socnewcar := GetParamValueBool cfg "xnl" "soc.newcar" false
              sohnewcar := GetParamValueBool cfg "xnl" "soh.newcar" false
              canwrite := GetParamValueBool cfg "xnl" "canwrite" false } }) := by
  simp [WebCfgFeatures, hm]

theorem WebCfgBattery_rejected (c : PageContext) (cfg : OvmsConfig)
    (hm : c.method = "POST") (he : batteryError c ≠ "") :
    WebCfgBattery c cfg =
      (cfg,
        { status := 400
          alert := some ("danger",
            "<p class=\"lead\">Error!</p><ul class=\"errorlist\">" ++ batteryError c ++ "</ul>")
          home := false
          form := some (batterySubmitted c) }) := by
  unfold batteryError at he
  simp [WebCfgBattery, hm, he, batteryError, batterySubmitted]

theorem WebCfgBattery_accepted (c : PageContext) (cfg : OvmsConfig)
    (hm : c.method = "POST") (he : batteryError c = "") :
    WebCfgBattery c cfg =
      (SetParamValueBool (SetParamValue (SetParamValue (SetParamValue (SetParamValue
        (SetParamValue (SetParamValue (SetParamValue cfg
          "xnl" "suffrange" (c.getvar "suffrange"))
          "xnl" "suffrangecalc" (c.getvar "suffrangecalc"))
          "xnl" "suffsoc" (c.getvar "suffsoc"))
          "xnl" "rangedrop" (c.getvar "rangedrop"))
          "xnl" "socdrop" (c.getvar "socdrop"))
          "xnl" "minrange" (c.getvar "minrange"))
          "xnl" "minsoc" (c.getvar "minsoc"))
          "xnl" "autocharge" (!(c.getvar "chgnoteonly" == "yes")),
        { status := 200
          alert := some ("success", "<p class=\"lead\">Nissan Leaf battery setup saved.</p>")
          home := true
          form := none }) := by
  unfold batteryError at he
  simp [WebCfgBattery, hm, he]

theorem WebCfgBattery_read (c : PageContext) (cfg : OvmsConfig) (hm : c.method ≠ "POST") :
    WebCfgBattery c cfg =
      (cfg,
        { status := 200
          alert := none
          home := false
          form := some
            { suffrange := GetParamValue cfg "xnl" "suffrange" "0"
              suffrangecalc := GetParamValue cfg "xnl" "suffrangecalc" "ideal"
              suffsoc := GetParamValue cfg "xnl" "suffsoc" "0"
              rangedrop := GetParamValue cfg "xnl" "rangedrop" "0"
              socdrop := GetParamValue cfg "xnl" "socdrop" "0"
              minrange := GetParamValue cfg "xnl" "minrange" "0"
              minsoc := GetParamValue cfg "xnl" "minsoc" "0"
              chgnoteonly := !GetParamValueBool cfg "xnl" "autocharge" true } }) := by
  simp [WebCfgBattery, hm]

/-! ## Rejection leaves the store alone -/

/-- C1: a POST to the features form or to the battery form whose check block accumulates a
non-empty error string performs no write: the store returned is the store received, and
the status is 400. -/
theorem rejected_post_keeps_store (K : NlConstants) (c : PageContext) (cfg : OvmsConfig)
    (hm : c.method = "POST") :
    (featuresError c ≠ "" →
      (WebCfgFeatures K c cfg).1 = cfg ∧ (∀ p k, (WebCfgFeatures K c cfg).1 p k = cfg p k) ∧
        (WebCfgFeatures K c cfg).2.status = 400) ∧
    (batteryError c ≠ "" →
      (WebCfgBattery c cfg).1 = cfg ∧ (∀ p k, (WebCfgBattery c cfg).1 p k = cfg p k) ∧
        (WebCfgBattery c cfg).2.status = 400) := by
  constructor
  · intro he
    rw [WebCfgFeatures_rejected K c cfg hm he]
    exact ⟨rfl, fun _ _ => rfl, rfl⟩
  · intro he
    rw [WebCfgBattery_rejected c cfg hm he]
    exact ⟨rfl, fun _ _ => rfl, rfl⟩

/-- A POST with `modelyear` "2005" and `suffsoc` "100.1" is rejected by both forms. -/
theorem rejected_post_keeps_store_witness :
    ((WebCfgFeatures sampleConstants (postRequest [("modelyear", "2005"), ("suffsoc", "100.1")])
        emptyConfig).1 = emptyConfig ∧
      (∀ p k, (WebCfgFeatures sampleConstants (postRequest [("modelyear", "2005"), ("suffsoc", "100.1")])
        emptyConfig).1 p k = emptyConfig p k) ∧
      (WebCfgFeatures sampleConstants (postRequest [("modelyear", "2005"), ("suffsoc", "100.1")])
        emptyConfig).2.status = 400) ∧
    ((WebCfgBattery (postRequest [("modelyear", "2005"), ("suffsoc", "100.1")]) emptyConfig).1 =
        emptyConfig ∧
      (∀ p k, (WebCfgBattery (postRequest [("modelyear", "2005"), ("suffsoc", "100.1")])
        emptyConfig).1 p k = emptyConfig p k) ∧
      (WebCfgBattery (postRequest [("modelyear", "2005"), ("suffsoc", "100.1")]) emptyConfig).2.status =
        400) :=
  ⟨(rejected_post_keeps_store sampleConstants (postRequest [("modelyear", "2005"), ("suffsoc", "100.1")])
      emptyConfig rfl).1 (by decide),
   (rejected_post_keeps_store sampleConstants (postRequest [("modelyear", "2005"), ("suffsoc", "100.1")])
      emptyConfig rfl).2 (by decide)⟩

/-! ## Commit, then read -/

/-- C2: round trip. A POST that passes the checks is answered with status 200, and the
read path (any request that is not a POST) on the store it leaves shows exactly what was
submitted: every string field as the raw submitted string, empty or not, and every boolean
as submitted (`getvar(...) == "yes"`; for the battery form `chgnoteonly`). -/
theorem commit_then_read_round_trip (K : NlConstants) (c g : PageContext) (cfg : OvmsConfig)
    (hm : c.method = "POST") (hg : g.method ≠ "POST") :
    (featuresError c = "" →
      (WebCfgFeatures K c cfg).2.status = 200 ∧
      (WebCfgFeatures K g (WebCfgFeatures K c cfg).1).2.form =
        some
          { modelyear := c.getvar "modelyear"
            cabintempoffset := c.getvar "cabintempoffset"
            cfg_ev_request_port := c.getvar "cfg_ev_request_port"
            maxgids := c.getvar "maxgids"
            newcarah := c.getvar "newcarah"
            socnewcar := c.getvar "socnewcar" == "yes"
            sohnewcar := c.getvar "sohnewcar" == "yes"
            canwrite := c.getvar "canwrite" == "yes" }) ∧
    (batteryError c = "" →
      (WebCfgBattery c cfg).2.status = 200 ∧
      (WebCfgBattery g (WebCfgBattery c cfg).1).2.form =
        some
          { suffrange := c.getvar "suffrange"
            suffrangecalc := c.getvar "suffrangecalc"
            suffsoc := c.getvar "suffsoc"
            rangedrop := c.getvar "rangedrop"
            socdrop := c.getvar "socdrop"
            minrange := c.getvar "minrange"
            minsoc := c.getvar "minsoc"
            chgnoteonly := c.getvar "chgnoteonly" == "yes" }) := by
  constructor
  · intro he
    rw [WebCfgFeatures_read K g _ hg, WebCfgFeatures_accepted K c cfg hm he]
    refine ⟨rfl, ?_⟩
    cases h1 : (c.getvar "socnewcar" == "yes") <;> cases h2 : (c.getvar "sohnewcar" == "yes") <;>
      cases h3 : (c.getvar "canwrite" == "yes") <;>
      simp [GetParamValue, GetParamValueBool, SetParamValue, SetParamValueBool]
  · intro he
    rw [WebCfgBattery_read g _ hg, WebCfgBattery_accepted c cfg hm he]
    refine ⟨rfl, ?_⟩
    cases h1 : (c.getvar "chgnoteonly" == "yes") <;>
      simp [GetParamValue, GetParamValueBool, SetParamValue, SetParamValueBool]

/-- A POST that both forms accept, read back from an empty store. -/
theorem commit_then_read_round_trip_witness :
    ((WebCfgFeatures sampleConstants
        (postRequest [("cabintempoffset", "-1.5"), ("cfg_ev_request_port", "3"), ("canwrite", "yes"),
          ("suffsoc", "80"), ("chgnoteonly", "yes")]) emptyConfig).2.status = 200 ∧
      (WebCfgFeatures sampleConstants getRequest (WebCfgFeatures sampleConstants
        (postRequest [("cabintempoffset", "-1.5"), ("cfg_ev_request_port", "3"), ("canwrite", "yes"),
          ("suffsoc", "80"), ("chgnoteonly", "yes")]) emptyConfig).1).2.form =
        some
          { modelyear := "", cabintempoffset := "-1.5", cfg_ev_request_port := "3",
            maxgids := "", newcarah := "", socnewcar := false, sohnewcar := false,
            canwrite := true }) ∧
    ((WebCfgBattery
        (postRequest [("cabintempoffset", "-1.5"), ("cfg_ev_request_port", "3"), ("canwrite", "yes"),
          ("suffsoc", "80"), ("chgnoteonly", "yes")]) emptyConfig).2.status = 200 ∧
      (WebCfgBattery getRequest (WebCfgBattery
        (postRequest [("cabintempoffset", "-1.5"), ("cfg_ev_request_port", "3"), ("canwrite", "yes"),
          ("suffsoc", "80"), ("chgnoteonly", "yes")]) emptyConfig).1).2.form =
        some
          { suffrange := "", suffrangecalc := "", suffsoc := "80", rangedrop := "",
            socdrop := "", minrange := "", minsoc := "", chgnoteonly := true }) :=
  ⟨(commit_then_read_round_trip sampleConstants
      (postRequest [("cabintempoffset", "-1.5"), ("cfg_ev_request_port", "3"), ("canwrite", "yes"),
        ("suffsoc", "80"), ("chgnoteonly", "yes")]) getRequest emptyConfig rfl (by decide)).1 (by decide),
   (commit_then_read_round_trip sampleConstants
      (postRequest [("cabintempoffset", "-1.5"), ("cfg_ev_request_port", "3"), ("canwrite", "yes"),
        ("suffsoc", "80"), ("chgnoteonly", "yes")]) getRequest emptyConfig rfl (by decide)).2 (by decide)⟩

/-! ## Booleans: `autocharge` and the radio buttons -/

theorem getvar_setvar_other (c : PageContext) (name value other : String)
    (h : other ≠ name) : (c.setvar name value).getvar other = c.getvar other := by
  have hb : (other == name) = false := by simpa using h
  simp [PageContext.getvar, PageContext.setvar, List.lookup, hb]

/-- C7: after a battery POST that passes the checks, the entry ("xnl","autocharge") holds
the negation of `chgnoteonly == "yes"`: "no" (false) when `chgnoteonly` is "yes", and
"yes" (true) for any other value, a missing variable included; the read path then shows
`chgnoteonly` as the negation of the stored `autocharge`. -/
theorem autocharge_is_negated_chgnoteonly (c g : PageContext) (cfg : OvmsConfig)
    (hm : c.method = "POST") (hg : g.method ≠ "POST") (he : batteryError c = "") :
    (WebCfgBattery c cfg).1 "xnl" "autocharge" =
        some (if c.getvar "chgnoteonly" = "yes" then "no" else "yes") ∧
    (∀ d : Bool, GetParamValueBool (WebCfgBattery c cfg).1 "xnl" "autocharge" d =
        !(c.getvar "chgnoteonly" == "yes")) ∧
    (c.getvar "chgnoteonly" = "yes" →
        ∀ d : Bool, GetParamValueBool (WebCfgBattery c cfg).1 "xnl" "autocharge" d = false) ∧
    (c.getvar "chgnoteonly" ≠ "yes" →
        ∀ d : Bool, GetParamValueBool (WebCfgBattery c cfg).1 "xnl" "autocharge" d = true) ∧
    (c.vars.lookup "chgnoteonly" = none →
        ∀ d : Bool, GetParamValueBool (WebCfgBattery c cfg).1 "xnl" "autocharge" d = true) ∧
    (WebCfgBattery g (WebCfgBattery c cfg).1).2.form.map (fun v => v.chgnoteonly) =
        some (!GetParamValueBool (WebCfgBattery c cfg).1 "xnl" "autocharge" true) := by
  rw [WebCfgBattery_read g _ hg, WebCfgBattery_accepted c cfg hm he]
  have hmiss : c.vars.lookup "chgnoteonly" = none → c.getvar "chgnoteonly" ≠ "yes" := by
    intro h
    simp [PageContext.getvar, h]
  refine ⟨?_, ?_, ?_, ?_, ?_, ?_⟩
  · by_cases h : c.getvar "chgnoteonly" = "yes" <;>
      simp [SetParamValue, SetParamValueBool, h]
  · intro d
    by_cases h : c.getvar "chgnoteonly" = "yes" <;>
      simp [GetParamValueBool, SetParamValue, SetParamValueBool, h]
  · intro h d
    simp [GetParamValueBool, SetParamValue, SetParamValueBool, h]
  · intro h d
    simp [GetParamValueBool, SetParamValue, SetParamValueBool, h]
  · intro h d
    simp [GetParamValueBool, SetParamValue, SetParamValueBool, hmiss h]
  · by_cases h : c.getvar "chgnoteonly" = "yes" <;>
      simp [GetParamValueBool, SetParamValue, SetParamValueBool, h]

/-- A battery POST with `chgnoteonly` "yes" on an empty store. -/
theorem autocharge_is_negated_chgnoteonly_witness :
    (WebCfgBattery (postRequest [("chgnoteonly", "yes")]) emptyConfig).1 "xnl" "autocharge" =
        some (if (postRequest [("chgnoteonly", "yes")]).getvar "chgnoteonly" = "yes" then "no"
          else "yes") ∧
    (∀ d : Bool, GetParamValueBool (WebCfgBattery (postRequest [("chgnoteonly", "yes")]) emptyConfig).1
        "xnl" "autocharge" d = !((postRequest [("chgnoteonly", "yes")]).getvar "chgnoteonly" == "yes")) ∧
    ((postRequest [("chgnoteonly", "yes")]).getvar "chgnoteonly" = "yes" →
        ∀ d : Bool, GetParamValueBool (WebCfgBattery (postRequest [("chgnoteonly", "yes")])
          emptyConfig).1 "xnl" "autocharge" d = false) ∧
    ((postRequest [("chgnoteonly", "yes")]).getvar "chgnoteonly" ≠ "yes" →
        ∀ d : Bool, GetParamValueBool (WebCfgBattery (postRequest [("chgnoteonly", "yes")])
          emptyConfig).1 "xnl" "autocharge" d = true) ∧
    ((postRequest [("chgnoteonly", "yes")]).vars.lookup "chgnoteonly" = none →
        ∀ d : Bool, GetParamValueBool (WebCfgBattery (postRequest [("chgnoteonly", "yes")])
          emptyConfig).1 "xnl" "autocharge" d = true) ∧
    (WebCfgBattery getRequest (WebCfgBattery (postRequest [("chgnoteonly", "yes")]) emptyConfig).1).2.form.map
        (fun v => v.chgnoteonly) =
        some (!GetParamValueBool (WebCfgBattery (postRequest [("chgnoteonly", "yes")]) emptyConfig).1
          "xnl" "autocharge" true) :=
  autocharge_is_negated_chgnoteonly (postRequest [("chgnoteonly", "yes")]) getRequest emptyConfig rfl
    (by decide) (by decide)

/-- C8: after a features POST that passes the checks, the boolean stored under `canwrite`
(`soc.newcar`, `soh.newcar`) is true iff the submitted `canwrite` (`socnewcar`,
`sohnewcar`) is exactly "yes", so "no", the empty string and a missing variable store
false; and whatever value a boolean variable is given, the error string and the status
of the request are the same: a boolean field never causes a rejection. -/
theorem boolean_fields_coerce_and_never_reject (K : NlConstants) (c : PageContext)
    (cfg : OvmsConfig) (hm : c.method = "POST") :
    (featuresError c = "" →
      ∀ d : Bool,
        (GetParamValueBool (WebCfgFeatures K c cfg).1 "xnl" "canwrite" d = true ↔
          c.getvar "canwrite" = "yes") ∧
        (GetParamValueBool (WebCfgFeatures K c cfg).1 "xnl" "soc.newcar" d = true ↔
          c.getvar "socnewcar" = "yes") ∧
        (GetParamValueBool (WebCfgFeatures K c cfg).1 "xnl" "soh.newcar" d = true ↔
          c.getvar "sohnewcar" = "yes") ∧
        (c.vars.lookup "canwrite" = none →
          GetParamValueBool (WebCfgFeatures K c cfg).1 "xnl" "canwrite" d = false) ∧
        (c.vars.lookup "socnewcar" = none →
          GetParamValueBool (WebCfgFeatures K c cfg).1 "xnl" "soc.newcar" d = false) ∧
        (c.vars.lookup "sohnewcar" = none →
          GetParamValueBool (WebCfgFeatures K c cfg).1 "xnl" "soh.newcar" d = false)) ∧
    (∀ name ∈ ["socnewcar", "sohnewcar", "canwrite"], ∀ value : String,
      featuresError (c.setvar name value) = featuresError c ∧
      (WebCfgFeatures K (c.setvar name value) cfg).2.status =
        (WebCfgFeatures K c cfg).2.status) := by
  constructor
  · intro he d
    rw [WebCfgFeatures_accepted K c cfg hm he]
    have hmiss : ∀ name, c.vars.lookup name = none → c.getvar name ≠ "yes" := by
      intro name h
      simp [PageContext.getvar, h]
    refine ⟨?_, ?_, ?_, ?_, ?_, ?_⟩
    · by_cases h : c.getvar "canwrite" = "yes" <;>
        simp [GetParamValueBool, SetParamValue, SetParamValueBool, h]
    · by_cases h : c.getvar "socnewcar" = "yes" <;>
        simp [GetParamValueBool, SetParamValue, SetParamValueBool, h]
    · by_cases h : c.getvar "sohnewcar" = "yes" <;>
        simp [GetParamValueBool, SetParamValue, SetParamValueBool, h]
    · intro h
      simp [GetParamValueBool, SetParamValue, SetParamValueBool, hmiss _ h]
    · intro h
      simp [GetParamValueBool, SetParamValue, SetParamValueBool, hmiss _ h]
    · intro h
      simp [GetParamValueBool, SetParamValue, SetParamValueBool, hmiss _ h]
  · intro name hname value
    have hmy : (c.setvar name value).getvar "modelyear" = c.getvar "modelyear" := by
      apply getvar_setvar_other
      intro h; subst h; simp at hname
    have hcab : (c.setvar name value).getvar "cabintempoffset" = c.getvar "cabintempoffset" := by
      apply getvar_setvar_other
      intro h; subst h; simp at hname
    have hport : (c.setvar name value).getvar "cfg_ev_request_port" =
        c.getvar "cfg_ev_request_port" := by
      apply getvar_setvar_other
      intro h; subst h; simp at hname
    have herr : featuresError (c.setvar name value) = featuresError c := by
      simp only [featuresError, hmy, hcab, hport]
    have hm2 : (c.setvar name value).method = "POST" := hm
    refine ⟨herr, ?_⟩
    by_cases he : featuresError c = ""
    · rw [WebCfgFeatures_accepted K c cfg hm he,
        WebCfgFeatures_accepted K _ cfg hm2 (herr.trans he)]
    · rw [WebCfgFeatures_rejected K c cfg hm he,
        WebCfgFeatures_rejected K _ cfg hm2 (by rw [herr]; exact he)]

/-- A features POST with `canwrite` "no", and the same with `canwrite` overridden. -/
theorem boolean_fields_coerce_and_never_reject_witness :
    (GetParamValueBool (WebCfgFeatures sampleConstants
        (postRequest [("cabintempoffset", "0"), ("cfg_ev_request_port", "1"), ("canwrite", "no")])
        emptyConfig).1 "xnl" "canwrite" true = true ↔
      (postRequest [("cabintempoffset", "0"), ("cfg_ev_request_port", "1"),
        ("canwrite", "no")]).getvar "canwrite" = "yes") ∧
    (featuresError ((postRequest [("cabintempoffset", "0"), ("cfg_ev_request_port", "1"),
        ("canwrite", "no")]).setvar "canwrite" "maybe") =
      featuresError (postRequest [("cabintempoffset", "0"), ("cfg_ev_request_port", "1"),
        ("canwrite", "no")])) :=
  ⟨((boolean_fields_coerce_and_never_reject sampleConstants
      (postRequest [("cabintempoffset", "0"), ("cfg_ev_request_port", "1"), ("canwrite", "no")])
      emptyConfig rfl).1 (by decide) true).1,
   ((boolean_fields_coerce_and_never_reject sampleConstants
      (postRequest [("cabintempoffset", "0"), ("cfg_ev_request_port", "1"), ("canwrite", "no")])
      emptyConfig rfl).2 "canwrite" (by decide) "maybe").1⟩

/-! ## The read path -/

/-- C9: the read path (any request that is not a POST) always answers with status 200 and
leaves the store as it is; every field shown is the stored value when the store has an
entry for its key and the declared default otherwise, so that a store without entries for
the keys of a form shows the defaults: "0", "ideal", "0", "0", "0", "0", "0" and
`autocharge` true (`chgnoteonly` false) for the battery form; the configured constants
and false, false, false for the features form. -/
theorem read_path_defaults (K : NlConstants) (c : PageContext) (cfg : OvmsConfig)
    (hm : c.method ≠ "POST") :
    ((WebCfgFeatures K c cfg).2.status = 200 ∧ (WebCfgFeatures K c cfg).1 = cfg) ∧
    ((WebCfgBattery c cfg).2.status = 200 ∧ (WebCfgBattery c cfg).1 = cfg) ∧
    ((∀ k ∈ batteryKeys, cfg "xnl" k = none) →
      GetParamValueBool cfg "xnl" "autocharge" true = true ∧
      (WebCfgBattery c cfg).2.form =
        some
          { suffrange := "0", suffrangecalc := "ideal", suffsoc := "0", rangedrop := "0",
            socdrop := "0", minrange := "0", minsoc := "0", chgnoteonly := false }) ∧
    ((∀ k ∈ featuresKeys, cfg "xnl" k = none) →
      (WebCfgFeatures K c cfg).2.form =
        some
          { modelyear := K.DEFAULT_MODEL_YEAR
            cabintempoffset := K.DEFAULT_CABINTEMP_OFFSET
            cfg_ev_request_port := K.DEFAULT_PIN_EV
            maxgids := K.GEN_1_NEW_CAR_GIDS
            newcarah := K.GEN_1_NEW_CAR_AH
            socnewcar := false
            sohnewcar := false
            canwrite := false }) ∧
    (WebCfgBattery c cfg).2.form =
        some
          { suffrange := (cfg "xnl" "suffrange").getD "0"
            suffrangecalc := (cfg "xnl" "suffrangecalc").getD "ideal"
            suffsoc := (cfg "xnl" "suffsoc").getD "0"
            rangedrop := (cfg "xnl" "rangedrop").getD "0"
            socdrop := (cfg "xnl" "socdrop").getD "0"
            minrange := (cfg "xnl" "minrange").getD "0"
            minsoc := (cfg "xnl" "minsoc").getD "0"
            chgnoteonly := !(((cfg "xnl" "autocharge").map (fun v => v == "yes")).getD true) } ∧
    (WebCfgFeatures K c cfg).2.form =
        some
          { modelyear := (cfg "xnl" "modelyear").getD K.DEFAULT_MODEL_YEAR
            cabintempoffset := (cfg "xnl" "cabintempoffset").getD K.DEFAULT_CABINTEMP_OFFSET
            cfg_ev_request_port := (cfg "xnl" "cfg_ev_request_port").getD K.DEFAULT_PIN_EV
            maxgids := (cfg "xnl" "maxGids").getD K.GEN_1_NEW_CAR_GIDS
            newcarah := (cfg "xnl" "newCarAh").getD K.GEN_1_NEW_CAR_AH
            socnewcar := ((cfg "xnl" "soc.newcar").map (fun v => v == "yes")).getD false
            sohnewcar := ((cfg "xnl" "soh.newcar").map (fun v => v == "yes")).getD false
            canwrite := ((cfg "xnl" "canwrite").map (fun v => v == "yes")).getD false } := by
  have hget : ∀ k d, GetParamValue cfg "xnl" k d = (cfg "xnl" k).getD d := by
    intro k d
    unfold GetParamValue
    cases cfg "xnl" k <;> rfl
  have hgetb : ∀ k d, GetParamValueBool cfg "xnl" k d =
      ((cfg "xnl" k).map (fun v => v == "yes")).getD d := by
    intro k d
    unfold GetParamValueBool
    cases cfg "xnl" k <;> rfl
  rw [WebCfgFeatures_read K c cfg hm, WebCfgBattery_read c cfg hm]
  refine ⟨⟨rfl, rfl⟩, ⟨rfl, rfl⟩, ?_, ?_, ?_, ?_⟩
  · intro h
    simp only [batteryKeys, List.mem_cons, List.mem_singleton, forall_eq_or_imp, forall_eq] at h
    obtain ⟨h1, h2, h3, h4, h5, h6, h7, h8, -⟩ := h
    simp [hget, hgetb, h1, h2, h3, h4, h5, h6, h7, h8]
  · intro h
    simp only [featuresKeys, List.mem_cons, List.mem_singleton, forall_eq_or_imp, forall_eq] at h
    obtain ⟨h1, h2, h3, h4, h5, h6, h7, h8, -⟩ := h
    simp [hget, hgetb, h1, h2, h3, h4, h5, h6, h7, h8]
  · simp only [hget, hgetb]
  · simp only [hget, hgetb]

/-- The read path on the empty store, with the sample constants. -/
theorem read_path_defaults_witness :
    ((WebCfgFeatures sampleConstants getRequest emptyConfig).2.status = 200 ∧
      (WebCfgFeatures sampleConstants getRequest emptyConfig).1 = emptyConfig) ∧
    (WebCfgBattery getRequest emptyConfig).2.form =
        some
          { suffrange := "0", suffrangecalc := "ideal", suffsoc := "0", rangedrop := "0",
            socdrop := "0", minrange := "0", minsoc := "0", chgnoteonly := false } ∧
    (WebCfgFeatures sampleConstants getRequest emptyConfig).2.form =
        some
          { modelyear := "2012", cabintempoffset := ".0", cfg_ev_request_port := "1",
            maxgids := "281", newcarah := "66", socnewcar := false, sohnewcar := false,
            canwrite := false } :=
  ⟨(read_path_defaults sampleConstants getRequest emptyConfig (by decide)).1,
   ((read_path_defaults sampleConstants getRequest emptyConfig (by decide)).2.2.1
      (fun _ _ => rfl)).2,
   (read_path_defaults sampleConstants getRequest emptyConfig (by decide)).2.2.2.1
      (fun _ _ => rfl)⟩

/-! ## The two forms write disjoint keys -/

/-- C10: in the namespace "xnl" the two forms write disjoint key sets. An accepted
features POST leaves an entry under each of its eight keys and changes no other entry; an
accepted battery POST does the same with its own eight keys; so a battery commit leaves
the features keys as they were and conversely, and a features commit and a battery commit
give the same store in either order. -/
theorem forms_write_disjoint_keys (K : NlConstants) (cf cb : PageContext) (cfg : OvmsConfig)
    (hf : cf.method = "POST") (hb : cb.method = "POST")
    (hef : featuresError cf = "") (heb : batteryError cb = "") :
    (∀ k ∈ featuresKeys, k ∉ batteryKeys) ∧
    (∀ k ∈ featuresKeys, ((WebCfgFeatures K cf cfg).1 "xnl" k).isSome = true) ∧
    (∀ p k, ¬(p = "xnl" ∧ k ∈ featuresKeys) → (WebCfgFeatures K cf cfg).1 p k = cfg p k) ∧
    (∀ k ∈ batteryKeys, ((WebCfgBattery cb cfg).1 "xnl" k).isSome = true) ∧
    (∀ p k, ¬(p = "xnl" ∧ k ∈ batteryKeys) → (WebCfgBattery cb cfg).1 p k = cfg p k) ∧
    (∀ k ∈ featuresKeys, (WebCfgBattery cb cfg).1 "xnl" k = cfg "xnl" k) ∧
    (∀ k ∈ batteryKeys, (WebCfgFeatures K cf cfg).1 "xnl" k = cfg "xnl" k) ∧
    (WebCfgBattery cb (WebCfgFeatures K cf cfg).1).1 =
      (WebCfgFeatures K cf (WebCfgBattery cb cfg).1).1 := by
  have hframeF : ∀ (st : OvmsConfig) p k, ¬(p = "xnl" ∧ k ∈ featuresKeys) →
      (WebCfgFeatures K cf st).1 p k = st p k := by
    intro st p k h
    rw [WebCfgFeatures_accepted K cf st hf hef]
    simp only [featuresKeys, List.mem_cons, List.mem_singleton, List.not_mem_nil, or_false,
      not_and, not_or] at h
    by_cases hp : p = "xnl"
    · obtain ⟨h1, h2, h3, h4, h5, h6, h7, h8⟩ := h hp
      simp [SetParamValue, SetParamValueBool, h1, h2, h3, h4, h5, h6, h7, h8]
    · simp [SetParamValue, SetParamValueBool, hp]
  have hframeB : ∀ (st : OvmsConfig) p k, ¬(p = "xnl" ∧ k ∈ batteryKeys) →
      (WebCfgBattery cb st).1 p k = st p k := by
    intro st p k h
    rw [WebCfgBattery_accepted cb st hb heb]
    simp only [batteryKeys, List.mem_cons, List.mem_singleton, List.not_mem_nil, or_false,
      not_and, not_or] at h
    by_cases hp : p = "xnl"
    · obtain ⟨h1, h2, h3, h4, h5, h6, h7, h8⟩ := h hp
      simp [SetParamValue, SetParamValueBool, h1, h2, h3, h4, h5, h6, h7, h8]
    · simp [SetParamValue, SetParamValueBool, hp]
  have hdisj : ∀ k ∈ featuresKeys, k ∉ batteryKeys := by decide
  have hvalF : ∀ (st st2 : OvmsConfig), ∀ k ∈ featuresKeys,
      (WebCfgFeatures K cf st).1 "xnl" k = (WebCfgFeatures K cf st2).1 "xnl" k ∧
        ((WebCfgFeatures K cf st).1 "xnl" k).isSome = true := by
    intro st st2
    rw [WebCfgFeatures_accepted K cf st hf hef, WebCfgFeatures_accepted K cf st2 hf hef]
    simp [featuresKeys, SetParamValue, SetParamValueBool]
  have hvalB : ∀ (st st2 : OvmsConfig), ∀ k ∈ batteryKeys,
      (WebCfgBattery cb st).1 "xnl" k = (WebCfgBattery cb st2).1 "xnl" k ∧
        ((WebCfgBattery cb st).1 "xnl" k).isSome = true := by
    intro st st2
    rw [WebCfgBattery_accepted cb st hb heb, WebCfgBattery_accepted cb st2 hb heb]
    simp [batteryKeys, SetParamValue, SetParamValueBool]
  refine ⟨hdisj, fun k hk => (hvalF cfg cfg k hk).2, hframeF cfg,
    fun k hk => (hvalB cfg cfg k hk).2, hframeB cfg, ?_, ?_, ?_⟩
  · intro k hk
    exact hframeB cfg "xnl" k (fun h => hdisj k hk h.2)
  · intro k hk
    exact hframeF cfg "xnl" k (fun h => hdisj k h.2 hk)
  · funext p k
    by_cases hF : p = "xnl" ∧ k ∈ featuresKeys
    · obtain ⟨rfl, hk⟩ := hF
      rw [hframeB _ "xnl" k (fun h => hdisj k hk h.2)]
      exact (hvalF _ _ k hk).1
    · rw [hframeF _ p k hF]
      by_cases hB : p = "xnl" ∧ k ∈ batteryKeys
      · obtain ⟨rfl, hk⟩ := hB
        exact (hvalB _ _ k hk).1
      · rw [hframeB _ p k hB, hframeB _ p k hB, hframeF _ p k hF]

/-- One POST accepted by both forms, committed in the two orders on an empty store. -/
theorem forms_write_disjoint_keys_witness :
    (∀ k ∈ featuresKeys, k ∉ batteryKeys) ∧
    (WebCfgBattery (postRequest [("cabintempoffset", "0"), ("cfg_ev_request_port", "1"),
        ("suffsoc", "80")])
      (WebCfgFeatures sampleConstants (postRequest [("cabintempoffset", "0"),
        ("cfg_ev_request_port", "1"), ("suffsoc", "80")]) emptyConfig).1).1 =
      (WebCfgFeatures sampleConstants (postRequest [("cabintempoffset", "0"),
        ("cfg_ev_request_port", "1"), ("suffsoc", "80")])
        (WebCfgBattery (postRequest [("cabintempoffset", "0"), ("cfg_ev_request_port", "1"),
          ("suffsoc", "80")]) emptyConfig).1).1 :=
  ⟨(forms_write_disjoint_keys sampleConstants
      (postRequest [("cabintempoffset", "0"), ("cfg_ev_request_port", "1"), ("suffsoc", "80")])
      (postRequest [("cabintempoffset", "0"), ("cfg_ev_request_port", "1"), ("suffsoc", "80")])
      emptyConfig rfl rfl (by decide) (by decide)).1,
   (forms_write_disjoint_keys sampleConstants
      (postRequest [("cabintempoffset", "0"), ("cfg_ev_request_port", "1"), ("suffsoc", "80")])
      (postRequest [("cabintempoffset", "0"), ("cfg_ev_request_port", "1"), ("suffsoc", "80")])
      emptyConfig rfl rfl (by decide) (by decide)).2.2.2.2.2.2.2⟩

/-! ## Every violated rule is reported -/

theorem step_eq_append (a b : Bool) (e msg : String) :
    (if a = true then (if b = true then e ++ msg else e) else e) =
      e ++ (if (a && b) = true then msg else "") := by
  cases a <;> cases b <;> simp

theorem renderErrors_expectedErrors_cons {V : Type} (r : FieldRule V) (rs : List (FieldRule V))
    (v : V) :
    renderErrors (expectedErrors (r :: rs) v) =
      (if r.violated v = true then errorItem r.field r.message else "") ++
        renderErrors (expectedErrors rs v) := by
  unfold expectedErrors
  by_cases h : r.violated v = true
  · simp [List.filter, h, renderErrors]
  · simp [List.filter, h, renderErrors]

theorem batteryCheck_eq_render (v : BatteryVars) :
    batteryCheck v.suffrange v.suffsoc v.rangedrop v.socdrop v.minrange v.minsoc =
      renderErrors (expectedErrors batteryRules v) := by
  have e1 : errorItem "suffrange" "Sufficient range invalid, must be &ge; 0" =
      "<li data-input=\"suffrange\">Sufficient range invalid, must be &ge; 0</li>" := by decide
  have e2 : errorItem "suffsoc" "Sufficient SOC invalid, must be 0…100" =
      "<li data-input=\"suffsoc\">Sufficient SOC invalid, must be 0…100</li>" := by decide
  have e3 : errorItem "rangedrop" "Allowed range drop invalid, must be &ge; 0" =
      "<li data-input=\"rangedrop\">Allowed range drop invalid, must be &ge; 0</li>" := by decide
  have e4 : errorItem "socdrop" "Allowed SOC drop invalid, must be 0…100" =
      "<li data-input=\"socdrop\">Allowed SOC drop invalid, must be 0…100</li>" := by decide
  have e5 : errorItem "minrange" "Minimum range invalid, must be &ge; 0" =
      "<li data-input=\"minrange\">Minimum range invalid, must be &ge; 0</li>" := by decide
  have e6 : errorItem "minsoc" "Minimum SOC invalid, must be 0…100" =
      "<li data-input=\"minsoc\">Minimum SOC invalid, must be 0…100</li>" := by decide
  unfold batteryCheck batteryRules
  simp only [renderErrors_expectedErrors_cons, step_eq_append, e1, e2, e3, e4, e5, e6,
    belowZero, outsidePercent]
  simp [String.append_assoc, expectedErrors, renderErrors]

theorem featuresCheck_eq_render (v : FeaturesVars) :
    featuresCheck v.modelyear v.cabintempoffset v.cfg_ev_request_port =
      renderErrors (expectedErrors featuresRules v) := by
  have e1 : errorItem "modelyear" "Model year must be &ge; 2011" =
      "<li data-input=\"modelyear\">Model year must be &ge; 2011</li>" := by decide
  have e2 : errorItem "cabintempoffset" "Cabin Temperature Offset can not be empty" =
      "<li data-input=\"cabintempoffset\">Cabin Temperature Offset can not be empty</li>" := by
    decide
  have e3 : errorItem "cfg_ev_request_port"
        "EV SYSTEM ACTIVATION REQUEST Pin field cannot be empty" =
      "<li data-input=\"cfg_ev_request_port\">EV SYSTEM ACTIVATION REQUEST Pin field cannot be empty</li>" := by
    decide
  unfold featuresCheck featuresRules
  simp only [renderErrors_expectedErrors_cons, e1, e2, e3]
  cases h1 : empty v.modelyear <;> by_cases h2 : atoi v.modelyear < 2011 <;>
    cases h3 : empty v.cabintempoffset <;> cases h4 : empty v.cfg_ev_request_port <;>
    simp [h2, expectedErrors, renderErrors]

/-! ## Floating-point comparisons and rational values -/

theorem CFloat.scaled_cast (neg : Bool) (m : Nat) (e b : Int) (h : b ≤ e) :
    ((CFloat.scaled neg m e b : Int) : ℚ) * (2 : ℚ) ^ b =
      (if neg then -1 else 1) * (m : ℚ) * (2 : ℚ) ^ e := by
  have h2 : (2 : ℚ) ^ ((e - b).toNat) * (2 : ℚ) ^ b = (2 : ℚ) ^ e := by
    rw [← zpow_natCast, Int.toNat_of_nonneg (sub_nonneg.2 h), ← zpow_add₀ (by norm_num)]
    congr 1
    ring
  cases neg
  · simp only [CFloat.scaled, Bool.false_eq_true, if_false]
    push_cast
    rw [mul_assoc, h2]
    ring
  · simp only [CFloat.scaled, if_true]
    push_cast
    rw [neg_mul, mul_assoc, h2]
    ring

theorem CFloat.lt_iff_value (a b : CFloat) (x y : ℚ) (ha : a.value = some x)
    (hb : b.value = some y) : a.lt b = true ↔ x < y := by
  cases a with
  | nan => simp [CFloat.value] at ha
  | inf _ => simp [CFloat.value] at ha
  | fin na ma ea =>
    cases b with
    | nan => simp [CFloat.value] at hb
    | inf _ => simp [CFloat.value] at hb
    | fin nb mb eb =>
      simp only [CFloat.value, Option.some.injEq] at ha hb
      have h1 := CFloat.scaled_cast na ma ea (min ea eb) (min_le_left _ _)
      have h2 := CFloat.scaled_cast nb mb eb (min ea eb) (min_le_right _ _)
      have hpos : (0 : ℚ) < (2 : ℚ) ^ (min ea eb) := zpow_pos (by norm_num) _
      simp only [CFloat.lt, decide_eq_true_eq]
      rw [← ha, ← hb, ← h1, ← h2, mul_lt_mul_right hpos]
      exact Int.cast_lt.symm

theorem CFloat.value_ofNat (k : Nat) : (CFloat.ofNat k).value = some (k : ℚ) := by
  simp [CFloat.ofNat, CFloat.value]

/-- For a value that is not a NaN, the percentage test passes exactly when the value is
a number between 0 and 100, bounds included. -/
theorem percent_test_iff (x : CFloat) (hx : x ≠ CFloat.nan) :
    (x.lt (CFloat.ofNat 0) || (CFloat.ofNat 100).lt x) = false ↔
      ∃ v : ℚ, x.value = some v ∧ 0 ≤ v ∧ v ≤ 100 := by
  cases x with
  | nan => exact absurd rfl hx
  | inf neg => cases neg <;> simp [CFloat.lt, CFloat.ofNat, CFloat.value]
  | fin neg m e =>
    have hv : (CFloat.fin neg m e).value = some ((if neg then -1 else 1) * (m : ℚ) * (2 : ℚ) ^ e) :=
      rfl
    have h0 := CFloat.lt_iff_value (CFloat.fin neg m e) (CFloat.ofNat 0) _ _ hv
      (CFloat.value_ofNat 0)
    have h100 := CFloat.lt_iff_value (CFloat.ofNat 100) (CFloat.fin neg m e) _ _
      (CFloat.value_ofNat 100) hv
    rw [Bool.or_eq_false_iff, ← Bool.not_eq_true, ← Bool.not_eq_true, h0, h100]
    simp only [hv, Option.some.injEq, exists_eq_left', not_lt, Nat.cast_zero, Nat.cast_ofNat]

/-- The range test fails exactly on the negative numbers and on minus infinity. -/
theorem range_test_iff (x : CFloat) :
    x.lt (CFloat.ofNat 0) = true ↔ x = CFloat.inf true ∨ ∃ v : ℚ, x.value = some v ∧ v < 0 := by
  cases x with
  | nan => simp [CFloat.lt, CFloat.ofNat, CFloat.value]
  | inf neg => cases neg <;> simp [CFloat.lt, CFloat.ofNat, CFloat.value]
  | fin neg m e =>
    have hv : (CFloat.fin neg m e).value = some ((if neg then -1 else 1) * (m : ℚ) * (2 : ℚ) ^ e) :=
      rfl
    have h0 := CFloat.lt_iff_value (CFloat.fin neg m e) (CFloat.ofNat 0) _ _ hv
      (CFloat.value_ofNat 0)
    rw [h0]
    simp [hv]

/-! ## What the C library reads -/

set_option exponentiation.threshold 2000

theorem bitLen_zero (fuel : Nat) : bitLen fuel 0 = 0 := by
  cases fuel <;> simp [bitLen]

/-- The fuel `n` is enough for `bitLen`: the result is the number of binary digits. -/
theorem bitLen_bounds (fuel n : Nat) (hf : n ≤ fuel) (hn : 0 < n) :
    2 ^ (bitLen fuel n - 1) ≤ n ∧ n < 2 ^ (bitLen fuel n) := by
  induction fuel generalizing n with
  | zero => omega
  | succ f ih =>
    have hne : n ≠ 0 := by omega
    simp only [bitLen, hne, if_false]
    by_cases h2 : n / 2 = 0
    · rw [h2, bitLen_zero]
      have : n = 1 := by omega
      subst this
      simp
    · have hpos : 0 < n / 2 := Nat.pos_of_ne_zero h2
      have hle : n / 2 ≤ f := by omega
      obtain ⟨h3, h4⟩ := ih (n / 2) hle hpos
      have hb : 1 ≤ bitLen f (n / 2) := by
        by_contra hc
        have h0 : bitLen f (n / 2) = 0 := by omega
        rw [h0] at h4
        simp at h4
        omega
      have e1 : bitLen f (n / 2) + 1 - 1 = (bitLen f (n / 2) - 1) + 1 := by omega
      rw [e1, pow_succ, pow_succ]
      constructor <;> omega

/-- The integer `roundHalfEven N D` is within one half of `N / D`, and even when it is
exactly half way. -/
theorem roundHalfEven_near (N D : Nat) (hD : 0 < D) :
    2 * (roundHalfEven N D * D - N) ≤ D ∧ 2 * (N - roundHalfEven N D * D) ≤ D ∧
      (2 * (roundHalfEven N D * D - N) = D ∨ 2 * (N - roundHalfEven N D * D) = D →
        roundHalfEven N D % 2 = 0) := by
  have hdm := Nat.div_add_mod N D
  have hlt := Nat.mod_lt N hD
  have hmul : D * (N / D) = (N / D) * D := Nat.mul_comm _ _
  unfold roundHalfEven
  simp only
  split_ifs with h
  · rw [Nat.add_mul, one_mul]
    rcases h with h | ⟨h, hodd⟩
    · refine ⟨by omega, by omega, ?_⟩
      intro h2
      omega
    · refine ⟨by omega, by omega, ?_⟩
      intro _
      omega
  · have h1 : ¬ D < 2 * (N % D) := fun hc => h (Or.inl hc)
    have h2 : 2 * (N % D) = D → ¬ (N / D) % 2 = 1 := fun e1 e2 => h (Or.inr ⟨e1, e2⟩)
    refine ⟨by omega, by omega, ?_⟩
    intro h3
    have : 2 * (N % D) = D := by omega
    have := h2 this
    omega

/-- The exponent `leadExponent n d` is that of the leading binary digit of `n / d`. -/
theorem leadExponent_spec (n d : Nat) (hn : 0 < n) (hd : 0 < d) :
    (2 : ℚ) ^ (leadExponent n d) ≤ (n : ℚ) / d ∧ (n : ℚ) / d < (2 : ℚ) ^ (leadExponent n d + 1) := by
  obtain ⟨n1, n2⟩ := bitLen_bounds n n le_rfl hn
  obtain ⟨d1, d2⟩ := bitLen_bounds d d le_rfl hd
  have hbn : 1 ≤ bitLen n n := by
    by_contra hc
    have h0 : bitLen n n = 0 := by omega
    rw [h0] at n2
    simp at n2
    omega
  have hbd : 1 ≤ bitLen d d := by
    by_contra hc
    have h0 : bitLen d d = 0 := by omega
    rw [h0] at d2
    simp at d2
    omega
  have hdq : (0 : ℚ) < d := by exact_mod_cast hd
  have two_pos : (0 : ℚ) < 2 := by norm_num
  have two_ne : (2 : ℚ) ≠ 0 := by norm_num
  -- the bounds on n and d, in ℚ with integer exponents
  have n1q : (2 : ℚ) ^ ((bitLen n n : Int) - 1) ≤ n := by
    have : ((2 ^ (bitLen n n - 1) : Nat) : ℚ) ≤ n := by exact_mod_cast n1
    have e : ((bitLen n n : Int) - 1) = ((bitLen n n - 1 : Nat) : Int) := by omega
    rw [e, zpow_natCast]
    simpa using this
  have n2q : (n : ℚ) < (2 : ℚ) ^ (bitLen n n : Int) := by
    have : (n : ℚ) < ((2 ^ (bitLen n n) : Nat) : ℚ) := by exact_mod_cast n2
    rw [zpow_natCast]
    simpa using this
  have d1q : (2 : ℚ) ^ ((bitLen d d : Int) - 1) ≤ d := by
    have : ((2 ^ (bitLen d d - 1) : Nat) : ℚ) ≤ d := by exact_mod_cast d1
    have e : ((bitLen d d : Int) - 1) = ((bitLen d d - 1 : Nat) : Int) := by omega
    rw [e, zpow_natCast]
    simpa using this
  have d2q : (d : ℚ) < (2 : ℚ) ^ (bitLen d d : Int) := by
    have : (d : ℚ) < ((2 ^ (bitLen d d) : Nat) : ℚ) := by exact_mod_cast d2
    rw [zpow_natCast]
    simpa using this
  -- what geTwoPow decides
  have hge : ∀ k : Int, geTwoPow n d k = true ↔ (2 : ℚ) ^ k ≤ (n : ℚ) / d := by
    intro k
    unfold geTwoPow
    rw [le_div_iff₀ hdq]
    by_cases hk : 0 ≤ k
    · simp only [hk, if_true, decide_eq_true_eq]
      have e : k = ((k.toNat : Nat) : Int) := (Int.toNat_of_nonneg hk).symm
      conv_rhs => rw [e, zpow_natCast]
      constructor
      · intro h
        have : ((d * 2 ^ k.toNat : Nat) : ℚ) ≤ n := by exact_mod_cast h
        push_cast at this
        linarith
      · intro h
        have : ((d * 2 ^ k.toNat : Nat) : ℚ) ≤ n := by push_cast; linarith
        exact_mod_cast this
    · simp only [hk, if_false, decide_eq_true_eq]
      have hk2 : 0 ≤ -k := by omega
      have e : k = -((((-k).toNat : Nat)) : Int) := by
        rw [Int.toNat_of_nonneg hk2]; ring
      have hp : (0 : ℚ) < (2 : ℚ) ^ ((-k).toNat) := pow_pos two_pos _
      conv_rhs => rw [e, zpow_neg, zpow_natCast]
      rw [inv_mul_le_iff₀ hp]
      constructor
      · intro h
        have : ((d : Nat) : ℚ) ≤ ((n * 2 ^ (-k).toNat : Nat) : ℚ) := by exact_mod_cast h
        push_cast at this
        linarith
      · intro h
        have : ((d : Nat) : ℚ) ≤ ((n * 2 ^ (-k).toNat : Nat) : ℚ) := by push_cast; linarith
        exact_mod_cast this
  -- n / d lies strictly between 2^(k-1) and 2^(k+1)
  have hlow : (2 : ℚ) ^ ((bitLen n n : Int) - (bitLen d d : Int) - 1) ≤ (n : ℚ) / d := by
    rw [le_div_iff₀ hdq]
    calc (2 : ℚ) ^ ((bitLen n n : Int) - (bitLen d d : Int) - 1) * d
        ≤ (2 : ℚ) ^ ((bitLen n n : Int) - (bitLen d d : Int) - 1) * (2 : ℚ) ^ (bitLen d d : Int) :=
          mul_le_mul_of_nonneg_left d2q.le (zpow_nonneg two_pos.le _)
      _ = (2 : ℚ) ^ ((bitLen n n : Int) - 1) := by
          rw [← zpow_add₀ two_ne]; congr 1; ring
      _ ≤ n := n1q
  have hhigh : (n : ℚ) / d < (2 : ℚ) ^ ((bitLen n n : Int) - (bitLen d d : Int) + 1) := by
    rw [div_lt_iff₀ hdq]
    calc (n : ℚ) < (2 : ℚ) ^ (bitLen n n : Int) := n2q
      _ = (2 : ℚ) ^ ((bitLen n n : Int) - (bitLen d d : Int) + 1) *
            (2 : ℚ) ^ ((bitLen d d : Int) - 1) := by
          rw [← zpow_add₀ two_ne]; congr 1; ring
      _ ≤ (2 : ℚ) ^ ((bitLen n n : Int) - (bitLen d d : Int) + 1) * d :=
          mul_le_mul_of_nonneg_left d1q (zpow_nonneg two_pos.le _)
  unfold leadExponent
  simp only
  by_cases hg : geTwoPow n d ((bitLen n n : Int) - (bitLen d d : Int)) = true
  · rw [if_pos hg]
    exact ⟨(hge _).1 hg, hhigh⟩
  · rw [if_neg hg]
    refine ⟨hlow, ?_⟩
    have : ¬ (2 : ℚ) ^ ((bitLen n n : Int) - (bitLen d d : Int)) ≤ (n : ℚ) / d :=
      fun h => hg ((hge _).2 h)
    have e : (bitLen n n : Int) - (bitLen d d : Int) - 1 + 1 =
        (bitLen n n : Int) - (bitLen d d : Int) := by ring
    rw [e]
    exact not_le.1 this

theorem scaled_frac (n d : Nat) (hd : 0 < d) (q : Int) :
    0 < scaledDen d q ∧
      ((scaledNum n q : Nat) : ℚ) / (scaledDen d q : Nat) = (n : ℚ) / d / (2 : ℚ) ^ q := by
  have hdq : (0 : ℚ) < d := by exact_mod_cast hd
  unfold scaledNum scaledDen
  by_cases hq0 : 0 ≤ q
  · simp only [hq0, if_true]
    refine ⟨by positivity, ?_⟩
    have e : q = ((q.toNat : Nat) : Int) := (Int.toNat_of_nonneg hq0).symm
    conv_rhs => rw [e, zpow_natCast]
    push_cast
    rw [div_div]
  · simp only [hq0, if_false]
    refine ⟨hd, ?_⟩
    have hq2 : 0 ≤ -q := by omega
    have e : q = -((((-q).toNat : Nat)) : Int) := by
      rw [Int.toNat_of_nonneg hq2]; ring
    conv_rhs => rw [e, zpow_neg, zpow_natCast]
    push_cast
    field_simp

/-- A finite result of `roundNearestEven` has the sign asked for, is within half a unit in
the last place of the exact value `n / d`, has at most `p` binary digits (or is the power
of two above them), and its last place is not below that of the subnormals. -/
theorem roundNearestEven_fin (p : Nat) (emin emax : Int) (neg : Bool) (n d : Nat)
    (hn : 0 < n) (hd : 0 < d) (s : Bool) (m : Nat) (q : Int)
    (h : roundNearestEven p emin emax neg n d = CFloat.fin s m q) :
    s = neg ∧ |(m : ℚ) * (2 : ℚ) ^ q - (n : ℚ) / d| ≤ (2 : ℚ) ^ q / 2 ∧ m ≤ 2 ^ p ∧
      emin - (p - 1) ≤ q := by
  have hne : n ≠ 0 := by omega
  unfold roundNearestEven at h
  rw [if_neg hne] at h
  simp only at h
  split_ifs at h with hov
  simp only [CFloat.fin.injEq] at h
  obtain ⟨hs, hm, hq⟩ := h
  rw [hq] at hm
  have two_pos : (0 : ℚ) < 2 := by norm_num
  have two_ne : (2 : ℚ) ≠ 0 := by norm_num
  have hqpos : (0 : ℚ) < (2 : ℚ) ^ q := zpow_pos two_pos _
  obtain ⟨-, hlead⟩ := leadExponent_spec n d hn hd
  obtain ⟨hD, hfrac⟩ := scaled_frac n d hd q
  have hDq : (0 : ℚ) < (scaledDen d q : Nat) := by exact_mod_cast hD
  obtain ⟨r1, r2, -⟩ := roundHalfEven_near (scaledNum n q) (scaledDen d q) hD
  rw [hm] at r1 r2
  generalize scaledNum n q = N at *
  generalize scaledDen d q = D at *
  -- within one half of N / D
  have c1 : (2 : ℚ) * ((m : ℚ) * D - N) ≤ D := by
    by_cases hc : N ≤ m * D
    · have : ((2 * (m * D - N) : Nat) : ℚ) ≤ D := by exact_mod_cast r1
      rw [Nat.cast_mul, Nat.cast_sub hc] at this
      push_cast at this
      linarith
    · have : ((m * D : Nat) : ℚ) < N := by exact_mod_cast (not_le.1 hc)
      push_cast at this
      linarith
  have c2 : (2 : ℚ) * ((N : ℚ) - (m : ℚ) * D) ≤ D := by
    by_cases hc : m * D ≤ N
    · have : ((2 * (N - m * D) : Nat) : ℚ) ≤ D := by exact_mod_cast r2
      rw [Nat.cast_mul, Nat.cast_sub hc] at this
      push_cast at this
      linarith
    · have : (N : ℚ) < ((m * D : Nat) : ℚ) := by exact_mod_cast (not_le.1 hc)
      push_cast at this
      linarith
  have hup : (N : ℚ) / D ≤ (m : ℚ) + 1 / 2 := by
    rw [div_le_iff₀ hDq]
    linarith
  have hdown : (m : ℚ) - 1 / 2 ≤ (N : ℚ) / D := by
    rw [le_div_iff₀ hDq]
    linarith
  have hnear : |(m : ℚ) - (N : ℚ) / D| ≤ 1 / 2 := by
    rw [abs_le]
    constructor <;> linarith
  refine ⟨hs.symm, ?_, ?_, ?_⟩
  · have e : (m : ℚ) * (2 : ℚ) ^ q - (n : ℚ) / d = ((m : ℚ) - (N : ℚ) / D) * (2 : ℚ) ^ q := by
      rw [hfrac]
      field_simp
      ring
    rw [e, abs_mul, abs_of_pos hqpos]
    calc |(m : ℚ) - (N : ℚ) / D| * (2 : ℚ) ^ q ≤ 1 / 2 * (2 : ℚ) ^ q :=
          mul_le_mul_of_nonneg_right hnear hqpos.le
      _ = (2 : ℚ) ^ q / 2 := by ring
  · -- N / D < 2^p
    have hq1 : leadExponent n d - ((p : Int) - 1) ≤ q := by
      rw [← hq]; exact le_max_left _ _
    have hlt : (N : ℚ) / D < (2 : ℚ) ^ (p : Int) := by
      rw [hfrac, div_lt_iff₀ hqpos, ← zpow_add₀ two_ne]
      calc (n : ℚ) / d < (2 : ℚ) ^ (leadExponent n d + 1) := hlead
        _ ≤ (2 : ℚ) ^ ((p : Int) + q) := zpow_le_zpow_right₀ (by norm_num) (by omega)
    have hm2 : (m : ℚ) < (2 : ℚ) ^ (p : Int) + 1 := by linarith
    rw [zpow_natCast] at hm2
    have hm3 : ((m : Nat) : ℚ) < ((2 ^ p + 1 : Nat) : ℚ) := by push_cast; exact hm2
    have : m < 2 ^ p + 1 := by exact_mod_cast hm3
    omega
  · rw [← hq]; exact le_max_right _ _

/-- Sample values of the model of `atof` and `float`: they are the IEEE 754 data a C
implementation gives (0.1f is 0x3DCCCCCD, 0.1 is 0x3FB999999999999A, 100.1f is 0x42C83333,
16777217 rounds to even, 3.4028236e38 overflows `float`, -1e-60 underflows to -0). -/
theorem float_model_samples :
    toFloat (atof "0.1") = CFloat.fin false 13421773 (-27) ∧
    atof "0.1" = CFloat.fin false 7205759403792794 (-56) ∧
    toFloat (atof "100.1") = CFloat.fin false 13120307 (-17) ∧
    toFloat (atof "16777217") = CFloat.fin false 8388608 1 ∧
    toFloat (atof "3.4028236e38") = CFloat.inf false ∧
    toFloat (atof "-1e-60") = CFloat.fin true 0 (-149) ∧
    atof "0x1.8p3" = CFloat.fin false 6755399441055744 (-49) ∧
    atof " -INFINITY" = CFloat.inf true ∧
    atof "abc" = CFloat.fin false 0 0 :=
  ⟨rfl, rfl, rfl, rfl, rfl, rfl, rfl, rfl, rfl⟩

theorem atoi_nonNumeric (s : String) (h : nonNumeric s = true) : atoi s = 0 := by
  unfold nonNumeric at h
  unfold atoi strtol
  cases hd : s.data with
  | nil => simp [hd] at h
  | cons c cs =>
    simp only [hd, Bool.and_eq_true, Bool.not_eq_true', bne_iff_ne, ne_eq] at h
    obtain ⟨⟨⟨⟨⟨⟨h1, h2⟩, h3⟩, h4⟩, _⟩, _⟩, _⟩ := h
    have hs : skipSpace (c :: cs) = c :: cs := by simp [skipSpace, h1]
    have hdv : digitsValue 0 (c :: cs) = 0 := by simp [digitsValue, h2]
    rw [hs]
    split
    · rename_i r heq
      simp only [List.cons.injEq] at heq
      exact absurd (congrArg Char.toNat heq.1) (by simpa using h4)
    · rename_i r heq
      simp only [List.cons.injEq] at heq
      exact absurd (congrArg Char.toNat heq.1) (by simpa using h3)
    · rw [hdv]; rfl

theorem atof_nonNumeric (s : String) (h : nonNumeric s = true) :
    atof s = CFloat.fin false 0 0 := by
  unfold nonNumeric at h
  unfold atof strtod
  cases hd : s.data with
  | nil => simp [hd] at h
  | cons c cs =>
    simp only [hd, Bool.and_eq_true, Bool.not_eq_true', bne_iff_ne, ne_eq] at h
    obtain ⟨⟨⟨⟨⟨⟨h1, h2⟩, h3⟩, h4⟩, h5⟩, h6⟩, h7⟩ := h
    have hs : skipSpace (c :: cs) = c :: cs := by simp [skipSpace, h1]
    have hpt : c ≠ '.' := fun e => h5 (by rw [e]; rfl)
    have hz : c ≠ '0' := fun e => by rw [e] at h2; exact absurd h2 (by decide)
    have hm : takeMantissa false (c :: cs) = (0, 0, 0, c :: cs) := by
      simp [takeMantissa, takeDigits, h2, hpt]
    have hu : strtodUnsigned false (c :: cs) = CFloat.fin false 0 0 := by
      unfold strtodUnsigned
      simp [hm, hz, h6, h7]
    rw [hs]
    split
    · rename_i r heq
      simp only [List.cons.injEq] at heq
      exact absurd (congrArg Char.toNat heq.1) (by simpa using h4)
    · rename_i r heq
      simp only [List.cons.injEq] at heq
      exact absurd (congrArg Char.toNat heq.1) (by simpa using h3)
    · exact hu

theorem nonNumeric_ne_empty (s : String) (h : nonNumeric s = true) : s ≠ "" := by
  intro e
  rw [e] at h
  exact absurd h (by decide)

theorem tests_nonNumeric (s : String) (h : nonNumeric s = true) :
    belowZero s = false ∧ outsidePercent s = false := by
  unfold belowZero outsidePercent
  rw [atof_nonNumeric s h]
  decide

/-! ## Entries of the error list -/

theorem errorItem_ne_empty (field message : String) : errorItem field message ≠ "" := by
  unfold errorItem
  intro h
  simp [append_eq_empty] at h

theorem Occurs.ne_empty {item text : String} (h : Occurs item text) (hi : item ≠ "") :
    text ≠ "" := by
  obtain ⟨pre, post, rfl⟩ := h
  intro h2
  simp [append_eq_empty, hi] at h2

theorem occurs_renderErrors (e : String × String) (es : List (String × String)) (h : e ∈ es) :
    Occurs (errorItem e.1 e.2) (renderErrors es) := by
  induction es with
  | nil => simp at h
  | cons a l ih =>
    rcases List.mem_cons.1 h with rfl | h2
    · exact ⟨"", renderErrors l, by simp [renderErrors]⟩
    · obtain ⟨pre, post, hp⟩ := ih h2
      exact ⟨errorItem a.1 a.2 ++ pre, post, by simp [renderErrors, hp, String.append_assoc]⟩

theorem occurs_of_violated {V : Type} (rules : List (FieldRule V)) (v : V) (r : FieldRule V)
    (hr : r ∈ rules) (hv : r.violated v = true) :
    Occurs (errorItem r.field r.message) (renderErrors (expectedErrors rules v)) := by
  apply occurs_renderErrors (r.field, r.message)
  unfold expectedErrors
  exact List.mem_map.2 ⟨r, List.mem_filter.2 ⟨hr, hv⟩, rfl⟩

theorem batteryError_eq_render (c : PageContext) :
    batteryError c = renderErrors (expectedErrors batteryRules (batterySubmitted c)) :=
  batteryCheck_eq_render (batterySubmitted c)

theorem featuresError_eq_render (c : PageContext) :
    featuresError c = renderErrors (expectedErrors featuresRules (featuresSubmitted c)) :=
  featuresCheck_eq_render (featuresSubmitted c)

/-- A violated rule of the battery form rejects the POST: status 400, the store as
received, and the entry of the rule in the error list. -/
theorem battery_rule_rejects (c : PageContext) (cfg : OvmsConfig) (hm : c.method = "POST")
    (r : FieldRule BatteryVars) (hr : r ∈ batteryRules)
    (hv : r.violated (batterySubmitted c) = true) :
    (WebCfgBattery c cfg).2.status = 400 ∧ (WebCfgBattery c cfg).1 = cfg ∧
      Occurs (errorItem r.field r.message) (batteryError c) := by
  have ho : Occurs (errorItem r.field r.message) (batteryError c) := by
    rw [batteryError_eq_render]
    exact occurs_of_violated batteryRules _ r hr hv
  rw [WebCfgBattery_rejected c cfg hm (ho.ne_empty (errorItem_ne_empty _ _))]
  exact ⟨rfl, rfl, ho⟩

/-- A violated rule of the features form rejects the POST. -/
theorem features_rule_rejects (K : NlConstants) (c : PageContext) (cfg : OvmsConfig)
    (hm : c.method = "POST") (r : FieldRule FeaturesVars) (hr : r ∈ featuresRules)
    (hv : r.violated (featuresSubmitted c) = true) :
    (WebCfgFeatures K c cfg).2.status = 400 ∧ (WebCfgFeatures K c cfg).1 = cfg ∧
      Occurs (errorItem r.field r.message) (featuresError c) := by
  have ho : Occurs (errorItem r.field r.message) (featuresError c) := by
    rw [featuresError_eq_render]
    exact occurs_of_violated featuresRules _ r hr hv
  rw [WebCfgFeatures_rejected K c cfg hm (ho.ne_empty (errorItem_ne_empty _ _))]
  exact ⟨rfl, rfl, ho⟩

theorem WebCfgBattery_status_iff (c : PageContext) (cfg : OvmsConfig) (hm : c.method = "POST") :
    (WebCfgBattery c cfg).2.status = 200 ↔ batteryError c = "" := by
  by_cases he : batteryError c = ""
  · rw [WebCfgBattery_accepted c cfg hm he]
    simp [he]
  · rw [WebCfgBattery_rejected c cfg hm he]
    simp [he]

theorem WebCfgFeatures_status_iff (K : NlConstants) (c : PageContext) (cfg : OvmsConfig)
    (hm : c.method = "POST") :
    (WebCfgFeatures K c cfg).2.status = 200 ↔ featuresError c = "" := by
  by_cases he : featuresError c = ""
  · rw [WebCfgFeatures_accepted K c cfg hm he]
    simp [he]
  · rw [WebCfgFeatures_rejected K c cfg hm he]
    simp [he]

theorem expectedErrors_fields {V : Type} (rules : List (FieldRule V))
    (hnd : (rules.map (fun r => r.field)).Nodup) (v : V) :
    ((expectedErrors rules v).map Prod.fst).Nodup ∧
      ∀ r ∈ rules, (r.field ∈ (expectedErrors rules v).map Prod.fst ↔ r.violated v = true) := by
  have hmap : (expectedErrors rules v).map Prod.fst =
      (rules.filter (fun r => r.violated v)).map (fun r => r.field) := by
    simp [expectedErrors, List.map_map, Function.comp_def]
  rw [hmap]
  constructor
  · exact List.Nodup.sublist ((List.filter_sublist _).map _) hnd
  · intro r hr
    constructor
    · intro h
      obtain ⟨r2, hr2, hf⟩ := List.mem_map.1 h
      obtain ⟨hr2m, hv⟩ := List.mem_filter.1 hr2
      have : r2 = r := List.inj_on_of_nodup_map hnd hr2m hr hf
      rw [← this]
      exact hv
    · intro hv
      exact List.mem_map.2 ⟨r, List.mem_filter.2 ⟨hr, hv⟩, rfl⟩

/-- C3: validation does not stop at the first error. The error string of each check block
is the list of entries, in the fixed check order (modelyear, cabintempoffset,
cfg_ev_request_port; suffrange, suffsoc, rangedrop, socdrop, minrange, minsoc), of exactly
the rules that are violated: each field occurs at most once, and it occurs iff its rule is
violated. With `modelyear` "2005", `cfg_ev_request_port` empty and `cabintempoffset` not
empty there are exactly two entries, for modelyear and for cfg_ev_request_port. -/
theorem validation_reports_every_violation :
    (∀ v : FeaturesVars,
      featuresCheck v.modelyear v.cabintempoffset v.cfg_ev_request_port =
        renderErrors (expectedErrors featuresRules v) ∧
      ((expectedErrors featuresRules v).map Prod.fst).Nodup ∧
      ∀ r ∈ featuresRules,
        (r.field ∈ (expectedErrors featuresRules v).map Prod.fst ↔ r.violated v = true)) ∧
    (∀ v : BatteryVars,
      batteryCheck v.suffrange v.suffsoc v.rangedrop v.socdrop v.minrange v.minsoc =
        renderErrors (expectedErrors batteryRules v) ∧
      ((expectedErrors batteryRules v).map Prod.fst).Nodup ∧
      ∀ r ∈ batteryRules,
        (r.field ∈ (expectedErrors batteryRules v).map Prod.fst ↔ r.violated v = true)) ∧
    featuresRules.map (fun r => r.field) =
      ["modelyear", "cabintempoffset", "cfg_ev_request_port"] ∧
    batteryRules.map (fun r => r.field) =
      ["suffrange", "suffsoc", "rangedrop", "socdrop", "minrange", "minsoc"] ∧
    (∀ v : FeaturesVars, v.modelyear = "2005" → v.cfg_ev_request_port = "" →
      v.cabintempoffset ≠ "" →
      expectedErrors featuresRules v =
        [("modelyear", "Model year must be &ge; 2011"),
         ("cfg_ev_request_port", "EV SYSTEM ACTIVATION REQUEST Pin field cannot be empty")] ∧
      featuresCheck v.modelyear v.cabintempoffset v.cfg_ev_request_port =
        "<li data-input=\"modelyear\">Model year must be &ge; 2011</li>" ++
          "<li data-input=\"cfg_ev_request_port\">EV SYSTEM ACTIVATION REQUEST Pin field cannot be empty</li>") := by
  have hF : (featuresRules.map (fun r => r.field)).Nodup := by decide
  have hB : (batteryRules.map (fun r => r.field)).Nodup := by decide
  refine ⟨fun v => ⟨featuresCheck_eq_render v, expectedErrors_fields featuresRules hF v⟩,
    fun v => ⟨batteryCheck_eq_render v, expectedErrors_fields batteryRules hB v⟩, rfl, rfl, ?_⟩
  intro v h1 h2 h3
  have h3b : empty v.cabintempoffset = false := (empty_eq_false_iff _).2 h3
  have hy : atoi "2005" < 2011 := by decide
  have he : empty "2005" = false := by decide
  have hp : empty "" = true := by decide
  constructor
  · simp [expectedErrors, featuresRules, List.filter, h1, h2, h3b, hy, he, hp]
  · simp [featuresCheck, h1, h2, h3b, hy, he, hp]

/-- The two entries for `modelyear` "2005", `cabintempoffset` "1.5" and no request port. -/
theorem validation_reports_every_violation_witness :
    expectedErrors featuresRules
        { modelyear := "2005", cabintempoffset := "1.5", cfg_ev_request_port := "",
          maxgids := "", newcarah := "", socnewcar := false, sohnewcar := false,
          canwrite := false } =
      [("modelyear", "Model year must be &ge; 2011"),
       ("cfg_ev_request_port", "EV SYSTEM ACTIVATION REQUEST Pin field cannot be empty")] ∧
    featuresCheck "2005" "1.5" "" =
      "<li data-input=\"modelyear\">Model year must be &ge; 2011</li>" ++
        "<li data-input=\"cfg_ev_request_port\">EV SYSTEM ACTIVATION REQUEST Pin field cannot be empty</li>" :=
  validation_reports_every_violation.2.2.2.2
    { modelyear := "2005", cabintempoffset := "1.5", cfg_ev_request_port := "",
      maxgids := "", newcarah := "", socnewcar := false, sohnewcar := false,
      canwrite := false } rfl rfl (by decide)


/-! ## The request port is only checked for emptiness -/

/-- C4 as stated fails: `cfg_ev_request_port` "99" is none of the declared options, and the
POST is accepted and "99" stored. -/
theorem undeclared_port_is_accepted :
    "99" ∉ requestPortOptions ∧
    (WebCfgFeatures sampleConstants
        (postRequest [("cabintempoffset", "0"), ("cfg_ev_request_port", "99")]) emptyConfig).2.status =
      200 ∧
    (WebCfgFeatures sampleConstants
        (postRequest [("cabintempoffset", "0"), ("cfg_ev_request_port", "99")]) emptyConfig).1
      "xnl" "cfg_ev_request_port" = some "99" := by
  decide

/-- C4, amended: `cfg_ev_request_port` is checked for emptiness only. When `modelyear`
and `cabintempoffset` pass their checks, a features POST is rejected (status 400, the
store as received, one error entry, for cfg_ev_request_port) exactly when
`cfg_ev_request_port` is empty; any non-empty value, declared option or not, is accepted
and stored as submitted. -/
theorem port_rejected_iff_empty (K : NlConstants) (c : PageContext) (cfg : OvmsConfig)
    (hm : c.method = "POST")
    (hy : c.getvar "modelyear" = "" ∨ 2011 ≤ atoi (c.getvar "modelyear"))
    (hc : c.getvar "cabintempoffset" ≠ "") :
    ((WebCfgFeatures K c cfg).2.status = 400 ↔ c.getvar "cfg_ev_request_port" = "") ∧
    (c.getvar "cfg_ev_request_port" = "" →
      (WebCfgFeatures K c cfg).1 = cfg ∧
      featuresError c =
        errorItem "cfg_ev_request_port"
          "EV SYSTEM ACTIVATION REQUEST Pin field cannot be empty") ∧
    (c.getvar "cfg_ev_request_port" ≠ "" →
      (WebCfgFeatures K c cfg).2.status = 200 ∧
      (WebCfgFeatures K c cfg).1 "xnl" "cfg_ev_request_port" =
        some (c.getvar "cfg_ev_request_port")) := by
  have hiff : featuresError c = "" ↔ c.getvar "cfg_ev_request_port" ≠ "" := by
    unfold featuresError
    rw [featuresCheck_eq_empty_iff]
    exact ⟨fun h => h.2.2, fun h => ⟨hy, hc, h⟩⟩
  have hacc : c.getvar "cfg_ev_request_port" ≠ "" →
      (WebCfgFeatures K c cfg).2.status = 200 ∧
      (WebCfgFeatures K c cfg).1 "xnl" "cfg_ev_request_port" =
        some (c.getvar "cfg_ev_request_port") := by
    intro hp
    rw [WebCfgFeatures_accepted K c cfg hm (hiff.2 hp)]
    simp [SetParamValue, SetParamValueBool]
  have hrej : c.getvar "cfg_ev_request_port" = "" →
      (WebCfgFeatures K c cfg).2.status = 400 ∧ (WebCfgFeatures K c cfg).1 = cfg := by
    intro hp
    have he : featuresError c ≠ "" := fun h => hiff.1 h hp
    rw [WebCfgFeatures_rejected K c cfg hm he]
    exact ⟨rfl, rfl⟩
  refine ⟨⟨?_, fun hp => (hrej hp).1⟩, ?_, hacc⟩
  · intro h4
    by_contra hp
    rw [(hacc hp).1] at h4
    exact absurd h4 (by decide)
  · intro hp
    refine ⟨(hrej hp).2, ?_⟩
    have hcab : empty (c.getvar "cabintempoffset") = false := (empty_eq_false_iff _).2 hc
    have hpe : empty "" = true := by decide
    have hitem : errorItem "cfg_ev_request_port"
          "EV SYSTEM ACTIVATION REQUEST Pin field cannot be empty" =
        "<li data-input=\"cfg_ev_request_port\">EV SYSTEM ACTIVATION REQUEST Pin field cannot be empty</li>" := by
      decide
    rw [hitem]
    unfold featuresError featuresCheck
    rcases hy with hy | hy
    · simp [hy, hcab, hp, hpe]
    · have hy2 : ¬ atoi (c.getvar "modelyear") < 2011 := not_lt.2 hy
      simp [hy2, hcab, hp, hpe]

/-- A features POST with the undeclared request port "99". -/
theorem port_rejected_iff_empty_witness :
    ((WebCfgFeatures sampleConstants
        (postRequest [("cabintempoffset", "0"), ("cfg_ev_request_port", "99")]) emptyConfig).2.status =
        400 ↔
      (postRequest [("cabintempoffset", "0"), ("cfg_ev_request_port", "99")]).getvar
        "cfg_ev_request_port" = "") ∧
    ((WebCfgFeatures sampleConstants
        (postRequest [("cabintempoffset", "0"), ("cfg_ev_request_port", "99")]) emptyConfig).2.status =
        200 ∧
      (WebCfgFeatures sampleConstants
        (postRequest [("cabintempoffset", "0"), ("cfg_ev_request_port", "99")]) emptyConfig).1
        "xnl" "cfg_ev_request_port" =
        some ((postRequest [("cabintempoffset", "0"), ("cfg_ev_request_port", "99")]).getvar
          "cfg_ev_request_port")) :=
  ⟨(port_rejected_iff_empty sampleConstants
      (postRequest [("cabintempoffset", "0"), ("cfg_ev_request_port", "99")]) emptyConfig rfl
      (Or.inl (by decide)) (by decide)).1,
   (port_rejected_iff_empty sampleConstants
      (postRequest [("cabintempoffset", "0"), ("cfg_ev_request_port", "99")]) emptyConfig rfl
      (Or.inl (by decide)) (by decide)).2.2 (by decide)⟩

/-! ## Percentages -/

/-- C5 as stated fails: the decimal 100.000001 is above 100, and so is the `double` that
`atof` returns for it, but the check compares the `float`, which is 100: the POST is
accepted and the text stored. Whatever is taken as the parsed value, "nan" is a second
failure: it is not empty, it reads as a NaN, which is no number between 0 and 100, and it
passes both comparisons, so the POST is accepted too. -/
theorem percent_just_above_hundred_is_accepted :
    (CFloat.ofNat 100).lt (atof "100.000001") = true ∧
    (CFloat.ofNat 100).lt (toFloat (atof "100.000001")) = false ∧
    (WebCfgBattery (postRequest [("suffsoc", "100.000001")]) emptyConfig).2.status = 200 ∧
    (WebCfgBattery (postRequest [("suffsoc", "100.000001")]) emptyConfig).1 "xnl" "suffsoc" =
      some "100.000001" ∧
    toFloat (atof "nan") = CFloat.nan ∧
    (WebCfgBattery (postRequest [("suffsoc", "nan")]) emptyConfig).2.status = 200 := by
  decide

/-- C5, amended: the bounds of the percentage fields are inclusive, on the value the code
compares, which is `atof` of the text converted to `float`. For a battery POST whose
range fields pass their checks and whose percentage fields (`suffsoc`, `socdrop`,
`minsoc`) are empty or convert to something other than a NaN, the POST is accepted iff
each percentage field is empty or its `float` value `v` satisfies `0 ≤ v ≤ 100`. With
the other fields passing, `suffsoc` "100", "0" and "" are accepted; `suffsoc` "100.1" is
rejected, nothing is stored and the error list has the entry of suffsoc. -/
theorem percent_bounds_inclusive (c : PageContext) (cfg : OvmsConfig) (hm : c.method = "POST")
    (h1 : c.getvar "suffrange" = "" ∨ belowZero (c.getvar "suffrange") = false)
    (h2 : c.getvar "rangedrop" = "" ∨ belowZero (c.getvar "rangedrop") = false)
    (h3 : c.getvar "minrange" = "" ∨ belowZero (c.getvar "minrange") = false) :
    ((∀ s ∈ [c.getvar "suffsoc", c.getvar "socdrop", c.getvar "minsoc"],
        s = "" ∨ toFloat (atof s) ≠ CFloat.nan) →
      ((WebCfgBattery c cfg).2.status = 200 ↔
        ∀ s ∈ [c.getvar "suffsoc", c.getvar "socdrop", c.getvar "minsoc"],
          s = "" ∨ ∃ v : ℚ, (toFloat (atof s)).value = some v ∧ 0 ≤ v ∧ v ≤ 100)) ∧
    (∀ s ∈ ["100", "0", ""], c.getvar "suffsoc" = s →
      (c.getvar "socdrop" = "" ∨ outsidePercent (c.getvar "socdrop") = false) →
      (c.getvar "minsoc" = "" ∨ outsidePercent (c.getvar "minsoc") = false) →
      (WebCfgBattery c cfg).2.status = 200) ∧
    (c.getvar "suffsoc" = "100.1" →
      (WebCfgBattery c cfg).2.status = 400 ∧ (WebCfgBattery c cfg).1 = cfg ∧
      Occurs (errorItem "suffsoc" "Sufficient SOC invalid, must be 0…100")
        (batteryError c)) := by
  have hst := WebCfgBattery_status_iff c cfg hm
  have hchk := batteryCheck_eq_empty_iff (c.getvar "suffrange") (c.getvar "suffsoc")
    (c.getvar "rangedrop") (c.getvar "socdrop") (c.getvar "minrange") (c.getvar "minsoc")
  have hval : ∀ s : String, (s = "" ∨ toFloat (atof s) ≠ CFloat.nan) →
      ((s = "" ∨ outsidePercent s = false) ↔
        (s = "" ∨ ∃ v : ℚ, (toFloat (atof s)).value = some v ∧ 0 ≤ v ∧ v ≤ 100)) := by
    intro s hs
    by_cases he : s = ""
    · simp [he]
    · have hn : toFloat (atof s) ≠ CFloat.nan := hs.resolve_left he
      simp only [he, false_or]
      exact percent_test_iff _ hn
  refine ⟨?_, ?_, ?_⟩
  · intro hn
    simp only [List.mem_cons, List.mem_singleton, List.not_mem_nil, or_false,
      forall_eq_or_imp, forall_eq] at hn ⊢
    obtain ⟨n1, n2, n3⟩ := hn
    rw [hst]
    unfold batteryError
    rw [hchk, ← hval _ n1, ← hval _ n2, ← hval _ n3]
    constructor
    · intro h
      exact ⟨h.2.1, h.2.2.2.1, h.2.2.2.2.2⟩
    · intro h
      exact ⟨h1, h.1, h2, h.2.1, h3, h.2.2⟩
  · intro s hs hsoc hd hmin
    rw [hst]
    unfold batteryError
    rw [hchk, hsoc]
    refine ⟨h1, ?_, h2, hd, h3, hmin⟩
    simp only [List.mem_cons, List.mem_singleton, List.not_mem_nil, or_false] at hs
    rcases hs with rfl | rfl | rfl
    · exact Or.inr (by decide)
    · exact Or.inr (by decide)
    · exact Or.inl rfl
  · intro hsoc
    have hr : (⟨"suffsoc", "Sufficient SOC invalid, must be 0…100",
        fun v => !empty v.suffsoc && outsidePercent v.suffsoc⟩ : FieldRule BatteryVars) ∈
          batteryRules := by
      simp [batteryRules]
    have hv : (!empty (batterySubmitted c).suffsoc && outsidePercent (batterySubmitted c).suffsoc)
        = true := by
      have : (batterySubmitted c).suffsoc = "100.1" := hsoc
      rw [this]
      decide
    have h := battery_rule_rejects c cfg hm _ hr hv
    exact h

/-- A battery POST with `suffsoc` "100" and `socdrop` "12.5". -/
theorem percent_bounds_inclusive_witness :
    ((WebCfgBattery (postRequest [("suffsoc", "100"), ("socdrop", "12.5")]) emptyConfig).2.status = 200 ↔
      ∀ s ∈ [(postRequest [("suffsoc", "100"), ("socdrop", "12.5")]).getvar "suffsoc",
          (postRequest [("suffsoc", "100"), ("socdrop", "12.5")]).getvar "socdrop",
          (postRequest [("suffsoc", "100"), ("socdrop", "12.5")]).getvar "minsoc"],
        s = "" ∨ ∃ v : ℚ, (toFloat (atof s)).value = some v ∧ 0 ≤ v ∧ v ≤ 100) ∧
    (WebCfgBattery (postRequest [("suffsoc", "100"), ("socdrop", "12.5")]) emptyConfig).2.status = 200 :=
  ⟨(percent_bounds_inclusive (postRequest [("suffsoc", "100"), ("socdrop", "12.5")]) emptyConfig rfl
      (Or.inl (by decide)) (Or.inl (by decide)) (Or.inl (by decide))).1 (by decide),
   (percent_bounds_inclusive (postRequest [("suffsoc", "100"), ("socdrop", "12.5")]) emptyConfig rfl
      (Or.inl (by decide)) (Or.inl (by decide)) (Or.inl (by decide))).2.1 "100" (by decide)
      (by decide) (Or.inr (by decide)) (Or.inl (by decide))⟩

/-! ## Numeric fields -/

/-- C6 as stated fails: `maxgids` "abc" is not a number, and the features POST is accepted
and "abc" stored; `suffsoc` "abc" reads as 0, and the battery POST is accepted and "abc"
stored. -/
theorem non_numeric_text_is_accepted :
    (WebCfgFeatures sampleConstants
        (postRequest [("cabintempoffset", "0"), ("cfg_ev_request_port", "1"), ("maxgids", "abc"),
          ("suffsoc", "abc")]) emptyConfig).2.status = 200 ∧
    (WebCfgFeatures sampleConstants
        (postRequest [("cabintempoffset", "0"), ("cfg_ev_request_port", "1"), ("maxgids", "abc"),
          ("suffsoc", "abc")]) emptyConfig).1 "xnl" "maxGids" = some "abc" ∧
    (WebCfgBattery
        (postRequest [("cabintempoffset", "0"), ("cfg_ev_request_port", "1"), ("maxgids", "abc"),
          ("suffsoc", "abc")]) emptyConfig).2.status = 200 ∧
    (WebCfgBattery
        (postRequest [("cabintempoffset", "0"), ("cfg_ev_request_port", "1"), ("maxgids", "abc"),
          ("suffsoc", "abc")]) emptyConfig).1 "xnl" "suffsoc" = some "abc" := by
  decide

/-- C6, amended: of the numeric fields, `modelyear` and the six battery fields are
checked, on the value the C library reads from the text (`atoi`; `atof` converted to
`float`). A POST is rejected, with status 400, the store as received and an error entry
for the field, when `modelyear` is not empty and its value is below 2011, when
`suffrange`, `rangedrop` or `minrange` is not empty and its value is below 0, and when
`suffsoc`, `socdrop` or `minsoc` is not empty and its value is below 0 or above 100.
`maxgids` and `newcarah` are not checked: whatever their value, the error list and the
status are the same. Non-numeric text such as "abc" reads as 0: it fails the test of
`modelyear` and passes the tests of the battery fields. -/
theorem checked_numeric_fields_reject (K : NlConstants) (c : PageContext) (cfg : OvmsConfig)
    (hm : c.method = "POST") :
    (c.getvar "modelyear" ≠ "" → atoi (c.getvar "modelyear") < 2011 →
      (WebCfgFeatures K c cfg).2.status = 400 ∧ (WebCfgFeatures K c cfg).1 = cfg ∧
      Occurs (errorItem "modelyear" "Model year must be &ge; 2011") (featuresError c)) ∧
    (∀ name ∈ ["suffrange", "rangedrop", "minrange"],
      c.getvar name ≠ "" → belowZero (c.getvar name) = true →
      (WebCfgBattery c cfg).2.status = 400 ∧ (WebCfgBattery c cfg).1 = cfg ∧
      ∃ r ∈ batteryRules, r.field = name ∧ Occurs (errorItem r.field r.message) (batteryError c)) ∧
    (∀ name ∈ ["suffsoc", "socdrop", "minsoc"],
      c.getvar name ≠ "" → outsidePercent (c.getvar name) = true →
      (WebCfgBattery c cfg).2.status = 400 ∧ (WebCfgBattery c cfg).1 = cfg ∧
      ∃ r ∈ batteryRules, r.field = name ∧ Occurs (errorItem r.field r.message) (batteryError c)) ∧
    (∀ name ∈ ["maxgids", "newcarah"], ∀ value : String,
      featuresError (c.setvar name value) = featuresError c ∧
      (WebCfgFeatures K (c.setvar name value) cfg).2.status =
        (WebCfgFeatures K c cfg).2.status) ∧
    (∀ s : String, belowZero s = true ↔
      toFloat (atof s) = CFloat.inf true ∨ ∃ v : ℚ, (toFloat (atof s)).value = some v ∧ v < 0) ∧
    (∀ s : String, outsidePercent s = true ↔
      toFloat (atof s) ≠ CFloat.nan ∧
        ¬∃ v : ℚ, (toFloat (atof s)).value = some v ∧ 0 ≤ v ∧ v ≤ 100) ∧
    (nonNumeric "abc" = true ∧
      ∀ s : String, nonNumeric s = true →
        atoi s = 0 ∧ belowZero s = false ∧ outsidePercent s = false) := by
  have hne : ∀ s : String, s ≠ "" → (!empty s) = true := by
    intro s h
    simp [(empty_eq_false_iff s).2 h]
  refine ⟨?_, ?_, ?_, ?_, ?_, ?_, ?_⟩
  · intro h1 h2
    have hr : (⟨"modelyear", "Model year must be &ge; 2011",
        fun v => !empty v.modelyear && decide (atoi v.modelyear < 2011)⟩ :
          FieldRule FeaturesVars) ∈ featuresRules := by
      simp [featuresRules]
    have hv : (!empty (featuresSubmitted c).modelyear &&
        decide (atoi (featuresSubmitted c).modelyear < 2011)) = true := by
      have e : (featuresSubmitted c).modelyear = c.getvar "modelyear" := rfl
      rw [e, hne _ h1]
      simpa using h2
    have h := features_rule_rejects K c cfg hm _ hr hv
    exact h
  · intro name hname h1 h2
    simp only [List.mem_cons, List.mem_singleton, List.not_mem_nil, or_false] at hname
    rcases hname with rfl | rfl | rfl
    · have hr : (⟨"suffrange", "Sufficient range invalid, must be &ge; 0",
          fun v => !empty v.suffrange && belowZero v.suffrange⟩ : FieldRule BatteryVars) ∈
            batteryRules := by
        simp [batteryRules]
      have hv : (!empty (batterySubmitted c).suffrange &&
          belowZero (batterySubmitted c).suffrange) = true := by
        have e : (batterySubmitted c).suffrange = c.getvar "suffrange" := rfl
        rw [e, hne _ h1, h2]
        rfl
      have h := battery_rule_rejects c cfg hm _ hr hv
      exact ⟨h.1, h.2.1, _, hr, rfl, h.2.2⟩
    · have hr : (⟨"rangedrop", "Allowed range drop invalid, must be &ge; 0",
          fun v => !empty v.rangedrop && belowZero v.rangedrop⟩ : FieldRule BatteryVars) ∈
            batteryRules := by
        simp [batteryRules]
      have hv : (!empty (batterySubmitted c).rangedrop &&
          belowZero (batterySubmitted c).rangedrop) = true := by
        have e : (batterySubmitted c).rangedrop = c.getvar "rangedrop" := rfl
        rw [e, hne _ h1, h2]
        rfl
      have h := battery_rule_rejects c cfg hm _ hr hv
      exact ⟨h.1, h.2.1, _, hr, rfl, h.2.2⟩
    · have hr : (⟨"minrange", "Minimum range invalid, must be &ge; 0",
          fun v => !empty v.minrange && belowZero v.minrange⟩ : FieldRule BatteryVars) ∈
            batteryRules := by
        simp [batteryRules]
      have hv : (!empty (batterySubmitted c).minrange &&
          belowZero (batterySubmitted c).minrange) = true := by
        have e : (batterySubmitted c).minrange = c.getvar "minrange" := rfl
        rw [e, hne _ h1, h2]
        rfl
      have h := battery_rule_rejects c cfg hm _ hr hv
      exact ⟨h.1, h.2.1, _, hr, rfl, h.2.2⟩
  · intro name hname h1 h2
    simp only [List.mem_cons, List.mem_singleton, List.not_mem_nil, or_false] at hname
    rcases hname with rfl | rfl | rfl
    · have hr : (⟨"suffsoc", "Sufficient SOC invalid, must be 0…100",
          fun v => !empty v.suffsoc && outsidePercent v.suffsoc⟩ : FieldRule BatteryVars) ∈
            batteryRules := by
        simp [batteryRules]
      have hv : (!empty (batterySubmitted c).suffsoc &&
          outsidePercent (batterySubmitted c).suffsoc) = true := by
        have e : (batterySubmitted c).suffsoc = c.getvar "suffsoc" := rfl
        rw [e, hne _ h1, h2]
        rfl
      have h := battery_rule_rejects c cfg hm _ hr hv
      exact ⟨h.1, h.2.1, _, hr, rfl, h.2.2⟩
    · have hr : (⟨"socdrop", "Allowed SOC drop invalid, must be 0…100",
          fun v => !empty v.socdrop && outsidePercent v.socdrop⟩ : FieldRule BatteryVars) ∈
            batteryRules := by
        simp [batteryRules]
      have hv : (!empty (batterySubmitted c).socdrop &&
          outsidePercent (batterySubmitted c).socdrop) = true := by
        have e : (batterySubmitted c).socdrop = c.getvar "socdrop" := rfl
        rw [e, hne _ h1, h2]
        rfl
      have h := battery_rule_rejects c cfg hm _ hr hv
      exact ⟨h.1, h.2.1, _, hr, rfl, h.2.2⟩
    · have hr : (⟨"minsoc", "Minimum SOC invalid, must be 0…100",
          fun v => !empty v.minsoc && outsidePercent v.minsoc⟩ : FieldRule BatteryVars) ∈
            batteryRules := by
        simp [batteryRules]
      have hv : (!empty (batterySubmitted c).minsoc &&
          outsidePercent (batterySubmitted c).minsoc) = true := by
        have e : (batterySubmitted c).minsoc = c.getvar "minsoc" := rfl
        rw [e, hne _ h1, h2]
        rfl
      have h := battery_rule_rejects c cfg hm _ hr hv
      exact ⟨h.1, h.2.1, _, hr, rfl, h.2.2⟩
  · intro name hname value
    have hmy : (c.setvar name value).getvar "modelyear" = c.getvar "modelyear" := by
      apply getvar_setvar_other
      intro h; subst h; simp at hname
    have hcab : (c.setvar name value).getvar "cabintempoffset" = c.getvar "cabintempoffset" := by
      apply getvar_setvar_other
      intro h; subst h; simp at hname
    have hport : (c.setvar name value).getvar "cfg_ev_request_port" =
        c.getvar "cfg_ev_request_port" := by
      apply getvar_setvar_other
      intro h; subst h; simp at hname
    have herr : featuresError (c.setvar name value) = featuresError c := by
      simp only [featuresError, hmy, hcab, hport]
    have hm2 : (c.setvar name value).method = "POST" := hm
    refine ⟨herr, ?_⟩
    by_cases he : featuresError c = ""
    · rw [WebCfgFeatures_accepted K c cfg hm he,
        WebCfgFeatures_accepted K _ cfg hm2 (herr.trans he)]
    · rw [WebCfgFeatures_rejected K c cfg hm he,
        WebCfgFeatures_rejected K _ cfg hm2 (by rw [herr]; exact he)]
  · intro s
    exact range_test_iff _
  · intro s
    unfold outsidePercent
    by_cases hn : toFloat (atof s) = CFloat.nan
    · rw [hn]
      simp [CFloat.lt, CFloat.ofNat]
    · rw [← percent_test_iff _ hn]
      cases (toFloat (atof s)).lt (CFloat.ofNat 0) <;>
        cases (CFloat.ofNat 100).lt (toFloat (atof s)) <;> simp [hn]
  · exact ⟨by decide, fun s h => ⟨atoi_nonNumeric s h, tests_nonNumeric s h⟩⟩

/-- A POST with `modelyear` "abc", `minrange` "-1" and `minsoc` "101". -/
theorem checked_numeric_fields_reject_witness :
    ((WebCfgFeatures sampleConstants (postRequest [("modelyear", "abc"), ("minrange", "-1"),
        ("minsoc", "101")]) emptyConfig).2.status = 400 ∧
      (WebCfgFeatures sampleConstants (postRequest [("modelyear", "abc"), ("minrange", "-1"),
        ("minsoc", "101")]) emptyConfig).1 = emptyConfig ∧
      Occurs (errorItem "modelyear" "Model year must be &ge; 2011")
        (featuresError (postRequest [("modelyear", "abc"), ("minrange", "-1"), ("minsoc", "101")]))) ∧
    ((WebCfgBattery (postRequest [("modelyear", "abc"), ("minrange", "-1"), ("minsoc", "101")])
        emptyConfig).2.status = 400 ∧
      (WebCfgBattery (postRequest [("modelyear", "abc"), ("minrange", "-1"), ("minsoc", "101")])
        emptyConfig).1 = emptyConfig ∧
      ∃ r ∈ batteryRules, r.field = "minrange" ∧ Occurs (errorItem r.field r.message)
        (batteryError (postRequest [("modelyear", "abc"), ("minrange", "-1"), ("minsoc", "101")]))) ∧
    ((WebCfgBattery (postRequest [("modelyear", "abc"), ("minrange", "-1"), ("minsoc", "101")])
        emptyConfig).2.status = 400 ∧
      (WebCfgBattery (postRequest [("modelyear", "abc"), ("minrange", "-1"), ("minsoc", "101")])
        emptyConfig).1 = emptyConfig ∧
      ∃ r ∈ batteryRules, r.field = "minsoc" ∧ Occurs (errorItem r.field r.message)
        (batteryError (postRequest [("modelyear", "abc"), ("minrange", "-1"), ("minsoc", "101")]))) :=
  ⟨(checked_numeric_fields_reject sampleConstants
      (postRequest [("modelyear", "abc"), ("minrange", "-1"), ("minsoc", "101")]) emptyConfig rfl).1
      (by decide) (by decide),
   (checked_numeric_fields_reject sampleConstants
      (postRequest [("modelyear", "abc"), ("minrange", "-1"), ("minsoc", "101")]) emptyConfig rfl).2.1
      "minrange" (by decide) (by decide) (by decide),
   (checked_numeric_fields_reject sampleConstants
      (postRequest [("modelyear", "abc"), ("minrange", "-1"), ("minsoc", "101")]) emptyConfig rfl).2.2.1
      "minsoc" (by decide) (by decide) (by decide)⟩

end NissanLeafWeb
